import Mathlib

/-!
# Server side of libtls: `tls_server.c`

A shallow embedding of `src/lib/libtls/tls_server.c` (`tls_server`,
`tls_server_conn`, `tls_configure_server`, `tls_accept_socket`) and theorems
about it.

The C code works on heap-allocated `struct tls` objects through pointers and
calls into the TLS engine (libssl).  The embedding passes an explicit `World`
(the heap of `struct tls` objects and the chronological list of calls made to
the engine and the allocator) and takes the results of those calls from an
`Engine` record, whose answers may depend on all the calls made before.  Constants that come from headers are collected in `Consts`.
-/

namespace TlsServer

/-- Address of a `struct tls` on the heap (an index into `World.heap`). -/
abbrev Ptr := Nat

/-- An object owned by the engine (`SSL_CTX *`, `SSL *`, `BIO *`, `EC_KEY *`);
a possibly-NULL handle is an `Option Handle`. -/
abbrev Handle := Nat

/-- Constants used by `tls_server.c` and defined in headers (`tls.h`,
`tls_internal.h`, `openssl/ssl.h`, `openssl/objects.h`, `openssl/bio.h`). -/
structure Consts where
  TLS_SERVER : Nat
  TLS_SERVER_CONN : Nat
  TLS_READ_AGAIN : Int
  TLS_WRITE_AGAIN : Int
  NID_undef : Int
  SSL_ERROR_WANT_READ : Int
  SSL_ERROR_WANT_WRITE : Int
  SSL_OP_SINGLE_ECDH_USE : Nat
  BIO_NOCLOSE : Int
  deriving DecidableEq, Repr

/-- The fields of `struct tls_config` that `tls_server.c` reads: the answer of
`tls_config_is_dtls` and `ecdhcurve`. -/
structure tls_config where
  dtls : Bool
  ecdhcurve : Int
  deriving DecidableEq, Repr

/-- The message recorded by `tls_set_error`: its format string and arguments. -/
structure ErrMsg where
  fmt : String
  args : List Int
  deriving DecidableEq, Repr

/-- The fields of `struct tls` that `tls_server.c` uses.  `config` stands for
the object `ctx->config` points to; the code never writes through it. -/
structure tls where
  config : tls_config
  flags : Nat
  errmsg : Option ErrMsg
  socket : Int
  ssl_conn : Option Handle
  ssl_ctx : Option Handle
  deriving DecidableEq, Repr

/-- The two server methods passed to `SSL_CTX_new`. -/
inductive Method where
  | DTLSv1_server_method
  | SSLv23_server_method
  deriving DecidableEq, Repr

/-- One call made by `tls_server.c` to the allocator or the engine, with its
arguments and, where the call has one, its result. -/
inductive Event where
  | tls_new (ret : Option Ptr)
  | SSL_CTX_new (method : Method) (ret : Option Handle)
  | tls_configure_ssl (ctx : Ptr) (ret : Int)
  | tls_configure_keypair (ctx : Ptr) (ret : Int)
  | SSL_CTX_set_ecdh_auto (ssl_ctx : Option Handle) (onoff : Int)
  | EC_KEY_new_by_curve_name (nid : Int) (ret : Option Handle)
  | SSL_CTX_set_options (ssl_ctx : Option Handle) (op : Nat)
  | SSL_CTX_set_tmp_ecdh (ssl_ctx : Option Handle) (key : Handle) (ret : Int)
  | EC_KEY_free (key : Handle)
  | SSL_new (ssl_ctx : Option Handle) (ret : Option Handle)
  | BIO_new_dgram (fd : Int) (close_flag : Int) (ret : Option Handle)
  | SSL_set_bio (ssl : Option Handle) (rbio : Option Handle) (wbio : Option Handle)
  | SSL_set_fd (ssl : Option Handle) (fd : Int) (ret : Int)
  | SSL_set_app_data (ssl : Option Handle) (arg : Ptr)
  | DTLSv1_listen (ssl : Option Handle) (ret : Int)
  | SSL_accept (ssl : Option Handle) (ret : Int)
  | SSL_get_error (ssl : Option Handle) (ret : Int) (err : Int)
  deriving DecidableEq, Repr

/-- The heap of `struct tls` objects and the calls made so far, oldest first. -/
structure World where
  heap : List tls
  trace : List Event
  deriving DecidableEq, Repr

/-- Results of the calls whose code is outside `tls_server.c`.  Each answer may
depend on the calls made so far (the first argument) and on the arguments.  `tls_new` gives the contents of
the freshly allocated context, or `none` for a NULL return. -/
structure Engine where
  tls_new : List Event → Option tls
  SSL_CTX_new : List Event → Method → Option Handle
  tls_configure_ssl : List Event → Ptr → Int
  tls_configure_keypair : List Event → Ptr → Int
  EC_KEY_new_by_curve_name : List Event → Int → Option Handle
  SSL_CTX_set_tmp_ecdh : List Event → Option Handle → Handle → Int
  SSL_new : List Event → Option Handle → Option Handle
  BIO_new_dgram : List Event → Int → Int → Option Handle
  SSL_set_fd : List Event → Option Handle → Int → Int
  DTLSv1_listen : List Event → Option Handle → Int
  SSL_accept : List Event → Option Handle → Int
  SSL_get_error : List Event → Option Handle → Int → Int

/-- Read the object at `p`; `none` when `p` is not a live object. -/
def World.load (w : World) (p : Ptr) : Option tls := w.heap[p]?

/-- Overwrite the object at `p`. -/
def World.store (w : World) (p : Ptr) (c : tls) : World :=
  { w with heap := w.heap.set p c }

/-- Record a call. -/
def World.emit (w : World) (e : Event) : World :=
  { w with trace := w.trace ++ [e] }

/-- Modelled from the spec: `tls_set_error` (tls.c) is not in the sources; it
"sets a descriptive error" on the context, here the format and its arguments. -/
def tls_set_error (w : World) (ctx : Ptr) (fmt : String) (args : List Int) :
    Option World :=
  match w.load ctx with
  | none => none
  | some c => some (w.store ctx { c with errmsg := some ⟨fmt, args⟩ })

/-- Modelled from the spec: `tls_config_is_dtls` is not in the sources; it
answers the config's `isDatagramProtocol`. -/
def tls_config_is_dtls (cfg : tls_config) : Bool := cfg.dtls

/-- Modelled from the spec: `tls_new` (tls.c) is not in the sources; it
"allocates a fresh context" or fails.  The new object gets the next free
address and the contents the allocator supplies. -/
def tls_new (E : Engine) (w : World) : Option Ptr × World :=
  match E.tls_new w.trace with
  | none => (none, w.emit (Event.tls_new none))
  | some c =>
    (some w.heap.length,
      { heap := w.heap ++ [c],
        trace := w.trace ++ [Event.tls_new (some w.heap.length)] })

/-- The function `tls_server`. -/
def tls_server (K : Consts) (E : Engine) (w : World) : Option (Option Ptr × World) :=
  match tls_new E w with
  | (none, w1) => some (none, w1)
  | (some p, w1) =>
    match w1.load p with
    | none => none
    | some c => some (some p, w1.store p { c with flags := c.flags ||| K.TLS_SERVER })

/-- The function `tls_server_conn`; its argument `ctx` is unused, as in the
source. -/
def tls_server_conn (K : Consts) (E : Engine) (w : World) (_ctx : Ptr) :
    Option (Option Ptr × World) :=
  match tls_new E w with
  | (none, w1) => some (none, w1)
  | (some p, w1) =>
    match w1.load p with
    | none => none
    | some c => some (some p, w1.store p { c with flags := c.flags ||| K.TLS_SERVER_CONN })

/-- The function `tls_configure_server` (lines 52-91): the return value and
the world after the call; `none` when `ctx` is not a live object. -/
def tls_configure_server (K : Consts) (E : Engine) (w : World) (ctx : Ptr) :
    Option (Int × World) :=
  match w.load ctx with
  | none => none
  | some c =>
    let method :=
      if tls_config_is_dtls c.config then Method.DTLSv1_server_method
      else Method.SSLv23_server_method
    let r := E.SSL_CTX_new w.trace method
    let w1 := (w.emit (Event.SSL_CTX_new method r)).store ctx { c with ssl_ctx := r }
    match r with
    | none =>
      match tls_set_error w1 ctx "ssl context failure" [] with
      | none => none
      | some w2 => some (-1, w2)
    | some _ =>
      let r1 := E.tls_configure_ssl w1.trace ctx
      let w2 := w1.emit (Event.tls_configure_ssl ctx r1)
      if r1 ≠ 0 then some (-1, w2)
      else
        let r2 := E.tls_configure_keypair w2.trace ctx
        let w3 := w2.emit (Event.tls_configure_keypair ctx r2)
        if r2 ≠ 0 then some (-1, w3)
        else
          match w3.load ctx with
          | none => none
          | some c3 =>
            if c3.config.ecdhcurve = -1 then
              some (0, w3.emit (Event.SSL_CTX_set_ecdh_auto c3.ssl_ctx 1))
            else if c3.config.ecdhcurve ≠ K.NID_undef then
              let k := E.EC_KEY_new_by_curve_name w3.trace c3.config.ecdhcurve
              let w4 := w3.emit (Event.EC_KEY_new_by_curve_name c3.config.ecdhcurve k)
              match k with
              | none =>
                match tls_set_error w4 ctx "failed to set ECDH curve" [] with
                | none => none
                | some w5 => some (-1, w5)
              | some ecdh_key =>
                let w5 := w4.emit (Event.SSL_CTX_set_options c3.ssl_ctx K.SSL_OP_SINGLE_ECDH_USE)
                let r3 := E.SSL_CTX_set_tmp_ecdh w5.trace c3.ssl_ctx ecdh_key
                let w6 := w5.emit (Event.SSL_CTX_set_tmp_ecdh c3.ssl_ctx ecdh_key r3)
                some (0, w6.emit (Event.EC_KEY_free ecdh_key))
            else some (0, w3)

/-- Lines 131-156 of `tls_accept_socket`: one handshake attempt on the
connection context `conn_ctx` and the translation of its result. -/
def tls_accept_handshake (K : Consts) (E : Engine) (w : World) (ctx : Ptr)
    (conn_ctx : Ptr) : Option (Int × World) :=
  match w.load ctx, w.load conn_ctx with
  | some c, some cc =>
    let ret :=
      if tls_config_is_dtls c.config then E.DTLSv1_listen w.trace cc.ssl_conn
      else E.SSL_accept w.trace cc.ssl_conn
    let w1 :=
      if tls_config_is_dtls c.config then w.emit (Event.DTLSv1_listen cc.ssl_conn ret)
      else w.emit (Event.SSL_accept cc.ssl_conn ret)
    if ret ≠ 1 then
      let ssl_err := E.SSL_get_error w1.trace cc.ssl_conn ret
      let w2 := w1.emit (Event.SSL_get_error cc.ssl_conn ret ssl_err)
      if ssl_err = K.SSL_ERROR_WANT_READ then some (K.TLS_READ_AGAIN, w2)
      else if ssl_err = K.SSL_ERROR_WANT_WRITE then some (K.TLS_WRITE_AGAIN, w2)
      else
        match tls_set_error w2 ctx "ssl accept failure (%i)" [ssl_err] with
        | none => none
        | some w3 => some (-1, w3)
    else some (0, w1)
  | _, _ => none

/-- The function `tls_accept_socket` (lines 93-160): the return value, the
contents of the slot `*cctx` after the call, and the world after the call;
`none` when a pointer that is dereferenced is not a live object. -/
def tls_accept_socket (K : Consts) (E : Engine) (w : World) (ctx : Ptr)
    (cctx : Option Ptr) (socket : Int) : Option (Int × Option Ptr × World) :=
  match w.load ctx with
  | none => none
  | some c =>
    if c.flags &&& K.TLS_SERVER = 0 then
      match tls_set_error w ctx "not a server context" [] with
      | none => none
      | some w1 => some (-1, cctx, w1)
    else
      match cctx with
      | none =>
        match tls_server_conn K E w ctx with
        | none => none
        | some (none, w1) =>
          match tls_set_error w1 ctx "connection context failure" [] with
          | none => none
          | some w2 => some (-1, none, w2)
        | some (some conn_ctx, w1) =>
          match w1.load conn_ctx with
          | none => none
          | some cc1 =>
            let w2 := w1.store conn_ctx { cc1 with socket := socket }
            match w2.load ctx, w2.load conn_ctx with
            | some c2, some cc2 =>
              let s := E.SSL_new w2.trace c2.ssl_ctx
              let w3 := (w2.emit (Event.SSL_new c2.ssl_ctx s)).store conn_ctx
                { cc2 with ssl_conn := s }
              match s with
              | none =>
                match tls_set_error w3 ctx "ssl failure" [] with
                | none => none
                | some w4 => some (-1, some conn_ctx, w4)
              | some _ =>
                if tls_config_is_dtls c2.config then
                  let bio := E.BIO_new_dgram w3.trace socket K.BIO_NOCLOSE
                  let w4 := w3.emit (Event.BIO_new_dgram socket K.BIO_NOCLOSE bio)
                  let w5 := w4.emit (Event.SSL_set_bio s bio bio)
                  let w6 := w5.emit (Event.SSL_set_app_data s conn_ctx)
                  match tls_accept_handshake K E w6 ctx conn_ctx with
                  | none => none
                  | some (r, w7) => some (r, some conn_ctx, w7)
                else
                  let r := E.SSL_set_fd w3.trace s socket
                  let w4 := w3.emit (Event.SSL_set_fd s socket r)
                  if r ≠ 1 then
                    match tls_set_error w4 ctx "ssl set fd failure" [] with
                    | none => none
                    | some w5 => some (-1, some conn_ctx, w5)
                  else
                    let w5 := w4.emit (Event.SSL_set_app_data s conn_ctx)
                    match tls_accept_handshake K E w5 ctx conn_ctx with
                    | none => none
                    | some (r, w6) => some (r, some conn_ctx, w6)
            | _, _ => none
      | some conn_ctx =>
        match tls_accept_handshake K E w ctx conn_ctx with
        | none => none
        | some (r, w1) => some (r, some conn_ctx, w1)

/-! ## Vocabulary for statements about the recorded calls -/

/-- Calls of the connection-creation step of `tls_accept_socket` (lines
105-128): allocation, session creation, transport binding, back-reference. -/
def Event.isCreation : Event → Bool
  | Event.tls_new _ => true
  | Event.SSL_new _ _ => true
  | Event.BIO_new_dgram _ _ _ => true
  | Event.SSL_set_bio _ _ _ => true
  | Event.SSL_set_fd _ _ _ => true
  | Event.SSL_set_app_data _ _ => true
  | _ => false

/-- Allocation of a context. -/
def Event.isAlloc : Event → Bool
  | Event.tls_new _ => true
  | _ => false

/-- Creation of a session. -/
def Event.isSessionNew : Event → Bool
  | Event.SSL_new _ _ => true
  | _ => false

/-- The calls `tls_accept_socket` may make when given `socket`: the creation
calls, with the datagram adapter built over `socket` with `BIO_NOCLOSE` and
attached for both directions and the descriptor attached being `socket`, and
the handshake calls.  No call that releases an object is among them. -/
def Event.isAcceptCall (K : Consts) (socket : Int) : Event → Bool
  | Event.tls_new _ => true
  | Event.SSL_new _ _ => true
  | Event.BIO_new_dgram fd flag _ => decide (fd = socket) && decide (flag = K.BIO_NOCLOSE)
  | Event.SSL_set_bio _ rbio wbio => decide (rbio = wbio)
  | Event.SSL_set_fd _ fd _ => decide (fd = socket)
  | Event.SSL_set_app_data _ _ => true
  | Event.DTLSv1_listen _ _ => true
  | Event.SSL_accept _ _ => true
  | Event.SSL_get_error _ _ _ => true
  | _ => false

/-- Successive calls of `tls_accept_socket` on one server context and one
slot, one call per socket argument of the list: the return values in order,
the final slot and the final world. -/
def accept_calls (K : Consts) (E : Engine) (ctx : Ptr) :
    World → Option Ptr → List Int → Option (List Int × Option Ptr × World)
  | w, slot, [] => some ([], slot, w)
  | w, slot, s :: ss =>
    match tls_accept_socket K E w ctx slot s with
    | none => none
    | some (r, slot1, w1) =>
      match accept_calls K E ctx w1 slot1 ss with
      | none => none
      | some (rs, slot2, w2) => some (r :: rs, slot2, w2)

/-! ## Concrete instances used to evaluate the definitions -/

/-- The values of the constants in the library headers, which are not among
the sources here (`TLS_SERVER = 1 << 1`, `TLS_SERVER_CONN = 1 << 2`, `TLS_READ_AGAIN = -2`,
`TLS_WRITE_AGAIN = -3`, `NID_undef = 0`, `SSL_ERROR_WANT_READ = 2`,
`SSL_ERROR_WANT_WRITE = 3`, `SSL_OP_SINGLE_ECDH_USE = 0x00080000`,
`BIO_NOCLOSE = 0`). -/
def hdrConsts : Consts :=
  { TLS_SERVER := 2, TLS_SERVER_CONN := 4, TLS_READ_AGAIN := -2, TLS_WRITE_AGAIN := -3,
    NID_undef := 0, SSL_ERROR_WANT_READ := 2, SSL_ERROR_WANT_WRITE := 3,
    SSL_OP_SINGLE_ECDH_USE := 524288, BIO_NOCLOSE := 0 }

/-- A zeroed context, as a fresh allocation would hold, with socket -1. -/
def blankTls (dtls : Bool) (curve : Int) : tls :=
  { config := { dtls := dtls, ecdhcurve := curve }, flags := 0, errmsg := none,
    socket := -1, ssl_conn := none, ssl_ctx := none }

/-- A server context (flag `TLS_SERVER` of `hdrConsts`) with the given engine
context. -/
def serverTls (dtls : Bool) (curve : Int) (ssl_ctx : Option Handle) : tls :=
  { blankTls dtls curve with flags := 2, ssl_ctx := ssl_ctx }

/-- An engine in which every call succeeds at once: allocations return
objects, the helpers return 0, `SSL_set_fd`, `SSL_CTX_set_tmp_ecdh` and both
handshake steps return 1. -/
def okEngine : Engine :=
  { tls_new := fun _ => some (blankTls false 0),
    SSL_CTX_new := fun _ _ => some 100,
    tls_configure_ssl := fun _ _ => 0,
    tls_configure_keypair := fun _ _ => 0,
    EC_KEY_new_by_curve_name := fun _ _ => some 200,
    SSL_CTX_set_tmp_ecdh := fun _ _ _ => 1,
    SSL_new := fun _ _ => some 300,
    BIO_new_dgram := fun _ _ _ => some 400,
    SSL_set_fd := fun _ _ _ => 1,
    DTLSv1_listen := fun _ _ => 1,
    SSL_accept := fun _ _ => 1,
    SSL_get_error := fun _ _ _ => 0 }

/-- An engine like `okEngine` whose `SSL_CTX_new` returns NULL. -/
def noCtxEngine : Engine := { okEngine with SSL_CTX_new := fun _ _ => none }

/-- An engine like `okEngine` whose `SSL_CTX_set_tmp_ecdh` returns 0: the
installation of the ephemeral key is rejected. -/
def rejectInstallEngine : Engine := { okEngine with SSL_CTX_set_tmp_ecdh := fun _ _ _ => 0 }

/-- An allocator that fails on the very first call and succeeds afterwards;
the rest of the engine is `okEngine`. -/
def flakyAllocEngine : Engine :=
  { okEngine with tls_new := fun t => if t.isEmpty then none else some (blankTls false 0) }

/-- An engine like `okEngine` whose `SSL_new` returns NULL. -/
def noSessionEngine : Engine := { okEngine with SSL_new := fun _ _ => none }

/-- An engine like `okEngine` whose stream handshake step asks for more input:
`SSL_accept` returns -1 and the engine error is `SSL_ERROR_WANT_READ` (2). -/
def wantReadEngine : Engine :=
  { okEngine with SSL_accept := fun _ _ => -1, SSL_get_error := fun _ _ _ => 2 }

/-! ## Reading and writing the heap -/

@[simp] theorem load_emit (w : World) (e : Event) (p : Ptr) :
    (w.emit e).load p = w.load p := rfl

@[simp] theorem trace_emit (w : World) (e : Event) :
    (w.emit e).trace = w.trace ++ [e] := rfl

@[simp] theorem heap_emit (w : World) (e : Event) : (w.emit e).heap = w.heap := rfl

@[simp] theorem trace_store (w : World) (p : Ptr) (c : tls) :
    (w.store p c).trace = w.trace := rfl

@[simp] theorem heap_store (w : World) (p : Ptr) (c : tls) :
    (w.store p c).heap = w.heap.set p c := rfl

theorem load_lt {w : World} {p : Ptr} {c : tls} (h : w.load p = some c) :
    p < w.heap.length := by
  unfold World.load at h
  rcases Nat.lt_or_ge p w.heap.length with hlt | hge
  · exact hlt
  · rw [List.getElem?_eq_none hge] at h
    cases h

theorem load_store_same {w : World} {p : Ptr} {c0 : tls} (c : tls)
    (h : w.load p = some c0) : (w.store p c).load p = some c := by
  have hlt := load_lt h
  simp [World.load, World.store, List.getElem?_set, hlt]

theorem tls_set_error_eq {w : World} {ctx : Ptr} {c : tls} (fmt : String)
    (args : List Int) (h : w.load ctx = some c) :
    tls_set_error w ctx fmt args
      = some (w.store ctx { c with errmsg := some ⟨fmt, args⟩ }) := by
  simp [tls_set_error, h]

/-- The path of `tls_accept_socket` taken when the role test fails. -/
theorem tls_accept_socket_not_server_aux (K : Consts) (E : Engine) (w : World) (ctx : Ptr)
    (cctx : Option Ptr) (socket : Int) (c : tls) (hctx : w.load ctx = some c)
    (hflag : c.flags &&& K.TLS_SERVER = 0) :
    ∃ w1, tls_accept_socket K E w ctx cctx socket = some (-1, cctx, w1) ∧
      w1.trace = w.trace ∧
      w1.heap = w.heap.set ctx { c with errmsg := some ⟨"not a server context", []⟩ } := by
  refine ⟨w.store ctx { c with errmsg := some ⟨"not a server context", []⟩ }, ?_, rfl, rfl⟩
  simp [tls_accept_socket, hctx, hflag, tls_set_error_eq _ _ hctx]

/-! ## Theorems -/

/-- C1: on a context whose flags do not contain `TLS_SERVER`, for every slot
content and every socket, `tls_accept_socket` returns -1, leaves the slot as it
was and makes no call to the allocator or the engine; the only change to the
world is the error message of the context. -/
theorem tls_accept_socket_not_server (K : Consts) (E : Engine) (w : World) (ctx : Ptr)
    (cctx : Option Ptr) (socket : Int) (c : tls) (hctx : w.load ctx = some c)
    (hflag : c.flags &&& K.TLS_SERVER = 0) :
    ∃ w1, tls_accept_socket K E w ctx cctx socket = some (-1, cctx, w1) ∧
      w1.trace = w.trace ∧
      w1.heap = w.heap.set ctx { c with errmsg := some ⟨"not a server context", []⟩ } := by
  have herr : tls_set_error w ctx "not a server context" []
      = some (w.store ctx { c with errmsg := some ⟨"not a server context", []⟩ }) := by
    simp [tls_set_error, hctx]
  refine ⟨w.store ctx { c with errmsg := some ⟨"not a server context", []⟩ }, ?_, rfl, rfl⟩
  simp [tls_accept_socket, hctx, hflag, herr]

/-- Instance of C1: a context with flags 0 and a populated slot. -/
theorem tls_accept_socket_not_server_witness :
    ∃ w1, tls_accept_socket hdrConsts okEngine
        { heap := [blankTls false 0, blankTls false 0], trace := [] } 0 (some 1) 7
          = some (-1, some 1, w1) ∧
      w1.trace = [] ∧
      w1.heap = [{ blankTls false 0 with errmsg := some ⟨"not a server context", []⟩ },
        blankTls false 0] :=
  tls_accept_socket_not_server hdrConsts okEngine
    { heap := [blankTls false 0, blankTls false 0], trace := [] } 0 (some 1) 7
    (blankTls false 0) rfl (by decide)

/-- The whole of `tls_configure_server` once the engine context has been
created and both helpers have returned 0: what is left is the curve policy. -/
theorem tls_configure_server_steps (K : Consts) (E : Engine) (w : World) (ctx : Ptr)
    (c : tls) (m : Method) (sctx : Handle)
    (hctx : w.load ctx = some c)
    (hm : m = if c.config.dtls = true then Method.DTLSv1_server_method
      else Method.SSLv23_server_method)
    (hnew : E.SSL_CTX_new w.trace m = some sctx)
    (hssl : E.tls_configure_ssl (w.trace ++ [Event.SSL_CTX_new m (some sctx)]) ctx = 0)
    (hkp : E.tls_configure_keypair (w.trace ++ [Event.SSL_CTX_new m (some sctx),
      Event.tls_configure_ssl ctx 0]) ctx = 0) :
    tls_configure_server K E w ctx =
      (let w3 : World :=
        { heap := w.heap.set ctx { c with ssl_ctx := some sctx },
          trace := w.trace ++ [Event.SSL_CTX_new m (some sctx),
            Event.tls_configure_ssl ctx 0, Event.tls_configure_keypair ctx 0] }
      if c.config.ecdhcurve = -1 then
        some (0, w3.emit (Event.SSL_CTX_set_ecdh_auto (some sctx) 1))
      else if c.config.ecdhcurve ≠ K.NID_undef then
        match E.EC_KEY_new_by_curve_name w3.trace c.config.ecdhcurve with
        | none =>
          some (-1, { heap := w.heap.set ctx
                        { c with ssl_ctx := some sctx,
                                 errmsg := some ⟨"failed to set ECDH curve", []⟩ },
                      trace := w3.trace ++
                        [Event.EC_KEY_new_by_curve_name c.config.ecdhcurve none] })
        | some key =>
          some (0, { heap := w3.heap,
                     trace := w3.trace ++
                       [Event.EC_KEY_new_by_curve_name c.config.ecdhcurve (some key),
                        Event.SSL_CTX_set_options (some sctx) K.SSL_OP_SINGLE_ECDH_USE,
                        Event.SSL_CTX_set_tmp_ecdh (some sctx) key
                          (E.SSL_CTX_set_tmp_ecdh (w3.trace ++
                            [Event.EC_KEY_new_by_curve_name c.config.ecdhcurve (some key),
                             Event.SSL_CTX_set_options (some sctx) K.SSL_OP_SINGLE_ECDH_USE])
                            (some sctx) key),
                        Event.EC_KEY_free key] })
      else some (0, w3)) := by
  subst hm
  have hld : ∀ (e : List Event) (c1 : tls),
      World.load { heap := w.heap.set ctx c1, trace := e } ctx = some c1 := by
    intro e c1
    have := load_store_same (w := { heap := w.heap, trace := e }) c1 hctx
    simpa [World.store] using this
  simp only [tls_configure_server, hctx, tls_config_is_dtls]
  simp only [World.emit, World.store, hnew, hssl, List.append_assoc, List.singleton_append,
    List.cons_append, List.nil_append, ne_eq, not_true_eq_false, ite_false, if_false,
    hkp, hld]
  by_cases h1 : c.config.ecdhcurve = -1
  · simp [h1]
  · by_cases h2 : c.config.ecdhcurve = K.NID_undef
    · simp [h1, h2]
    · simp only [h1, h2, if_false, not_false_eq_true, if_true]
      cases hk : E.EC_KEY_new_by_curve_name
          (w.trace ++ [Event.SSL_CTX_new
            (if c.config.dtls = true then Method.DTLSv1_server_method
              else Method.SSLv23_server_method) (some sctx),
            Event.tls_configure_ssl ctx 0, Event.tls_configure_keypair ctx 0])
          c.config.ecdhcurve with
      | none => simp [tls_set_error, hld, World.store]
      | some key => simp

/-- C4: when engine-context creation, settings and keypair application succeed,
`tls_configure_server` returns 0 under each curve policy, and the calls it
makes after the keypair step are: for an explicit curve whose key generation
succeeds, one key generation, the single-use option, one installation of that
key and one release of it, in this order, and nothing else; for the automatic
policy (`ecdhcurve = -1`) only the call enabling automatic selection; for the
disabled policy (`ecdhcurve = NID_undef`, a constant other than -1) no call at
all. -/
theorem tls_configure_server_curve_policy (K : Consts) (E : Engine) (w : World)
    (ctx : Ptr) (c : tls) (m : Method) (sctx : Handle)
    (hctx : w.load ctx = some c)
    (hm : m = if c.config.dtls = true then Method.DTLSv1_server_method
      else Method.SSLv23_server_method)
    (hnew : E.SSL_CTX_new w.trace m = some sctx)
    (hssl : E.tls_configure_ssl (w.trace ++ [Event.SSL_CTX_new m (some sctx)]) ctx = 0)
    (hkp : E.tls_configure_keypair (w.trace ++ [Event.SSL_CTX_new m (some sctx),
      Event.tls_configure_ssl ctx 0]) ctx = 0) :
    (∀ key : Handle, c.config.ecdhcurve ≠ -1 → c.config.ecdhcurve ≠ K.NID_undef →
      E.EC_KEY_new_by_curve_name (w.trace ++ [Event.SSL_CTX_new m (some sctx),
        Event.tls_configure_ssl ctx 0, Event.tls_configure_keypair ctx 0])
        c.config.ecdhcurve = some key →
      ∃ r : Int, tls_configure_server K E w ctx = some (0,
        { heap := w.heap.set ctx { c with ssl_ctx := some sctx },
          trace := w.trace ++ [Event.SSL_CTX_new m (some sctx),
            Event.tls_configure_ssl ctx 0, Event.tls_configure_keypair ctx 0,
            Event.EC_KEY_new_by_curve_name c.config.ecdhcurve (some key),
            Event.SSL_CTX_set_options (some sctx) K.SSL_OP_SINGLE_ECDH_USE,
            Event.SSL_CTX_set_tmp_ecdh (some sctx) key r,
            Event.EC_KEY_free key] })) ∧
    (c.config.ecdhcurve = -1 →
      tls_configure_server K E w ctx = some (0,
        { heap := w.heap.set ctx { c with ssl_ctx := some sctx },
          trace := w.trace ++ [Event.SSL_CTX_new m (some sctx),
            Event.tls_configure_ssl ctx 0, Event.tls_configure_keypair ctx 0,
            Event.SSL_CTX_set_ecdh_auto (some sctx) 1] })) ∧
    (K.NID_undef ≠ -1 → c.config.ecdhcurve = K.NID_undef →
      tls_configure_server K E w ctx = some (0,
        { heap := w.heap.set ctx { c with ssl_ctx := some sctx },
          trace := w.trace ++ [Event.SSL_CTX_new m (some sctx),
            Event.tls_configure_ssl ctx 0, Event.tls_configure_keypair ctx 0] })) := by
  have hmain := tls_configure_server_steps K E w ctx c m sctx hctx hm hnew hssl hkp
  refine ⟨?_, ?_, ?_⟩
  · intro key h1 h2 hk
    refine ⟨E.SSL_CTX_set_tmp_ecdh (w.trace ++ [Event.SSL_CTX_new m (some sctx),
      Event.tls_configure_ssl ctx 0, Event.tls_configure_keypair ctx 0,
      Event.EC_KEY_new_by_curve_name c.config.ecdhcurve (some key),
      Event.SSL_CTX_set_options (some sctx) K.SSL_OP_SINGLE_ECDH_USE]) (some sctx) key, ?_⟩
    rw [hmain]
    simp [h1, h2, hk]
  · intro h1
    rw [hmain]
    simp [h1, World.emit]
  · intro hK h2
    rw [hmain]
    simp [h2, hK]

/-- Instance of C4: stream configuration with the explicit curve 415 on an
engine where every step succeeds. -/
theorem tls_configure_server_curve_policy_witness :
    ∃ r : Int, tls_configure_server hdrConsts okEngine
        { heap := [serverTls false 415 none], trace := [] } 0 = some (0,
      { heap := [serverTls false 415 (some 100)],
        trace := [Event.SSL_CTX_new Method.SSLv23_server_method (some 100),
          Event.tls_configure_ssl 0 0, Event.tls_configure_keypair 0 0,
          Event.EC_KEY_new_by_curve_name 415 (some 200),
          Event.SSL_CTX_set_options (some 100) 524288,
          Event.SSL_CTX_set_tmp_ecdh (some 100) 200 r,
          Event.EC_KEY_free 200] }) :=
  (tls_configure_server_curve_policy hdrConsts okEngine
    { heap := [serverTls false 415 none], trace := [] } 0 (serverTls false 415 none)
    Method.SSLv23_server_method 100 rfl rfl rfl rfl rfl).1 200
    (by decide) (by decide) rfl

/-- C5: `tls_configure_server` returns -1 as soon as a step fails and makes no
further call: when `SSL_CTX_new` returns no context; when `tls_configure_ssl`
returns non-zero; when `tls_configure_keypair` returns non-zero; when key
generation for an explicit curve returns no key.  In each case the recorded
calls end with the failing one. -/
theorem tls_configure_server_failure (K : Consts) (E : Engine) (w : World) (ctx : Ptr)
    (c : tls) (m : Method)
    (hctx : w.load ctx = some c)
    (hm : m = if c.config.dtls = true then Method.DTLSv1_server_method
      else Method.SSLv23_server_method) :
    (E.SSL_CTX_new w.trace m = none →
      tls_configure_server K E w ctx = some (-1,
        { heap := w.heap.set ctx
            { c with ssl_ctx := none, errmsg := some ⟨"ssl context failure", []⟩ },
          trace := w.trace ++ [Event.SSL_CTX_new m none] })) ∧
    (∀ (sctx : Handle) (r1 : Int), E.SSL_CTX_new w.trace m = some sctx →
      E.tls_configure_ssl (w.trace ++ [Event.SSL_CTX_new m (some sctx)]) ctx = r1 →
      r1 ≠ 0 →
      tls_configure_server K E w ctx = some (-1,
        { heap := w.heap.set ctx { c with ssl_ctx := some sctx },
          trace := w.trace ++ [Event.SSL_CTX_new m (some sctx),
            Event.tls_configure_ssl ctx r1] })) ∧
    (∀ (sctx : Handle) (r2 : Int), E.SSL_CTX_new w.trace m = some sctx →
      E.tls_configure_ssl (w.trace ++ [Event.SSL_CTX_new m (some sctx)]) ctx = 0 →
      E.tls_configure_keypair (w.trace ++ [Event.SSL_CTX_new m (some sctx),
        Event.tls_configure_ssl ctx 0]) ctx = r2 →
      r2 ≠ 0 →
      tls_configure_server K E w ctx = some (-1,
        { heap := w.heap.set ctx { c with ssl_ctx := some sctx },
          trace := w.trace ++ [Event.SSL_CTX_new m (some sctx),
            Event.tls_configure_ssl ctx 0, Event.tls_configure_keypair ctx r2] })) ∧
    (∀ sctx : Handle, E.SSL_CTX_new w.trace m = some sctx →
      E.tls_configure_ssl (w.trace ++ [Event.SSL_CTX_new m (some sctx)]) ctx = 0 →
      E.tls_configure_keypair (w.trace ++ [Event.SSL_CTX_new m (some sctx),
        Event.tls_configure_ssl ctx 0]) ctx = 0 →
      c.config.ecdhcurve ≠ -1 → c.config.ecdhcurve ≠ K.NID_undef →
      E.EC_KEY_new_by_curve_name (w.trace ++ [Event.SSL_CTX_new m (some sctx),
        Event.tls_configure_ssl ctx 0, Event.tls_configure_keypair ctx 0])
        c.config.ecdhcurve = none →
      tls_configure_server K E w ctx = some (-1,
        { heap := w.heap.set ctx
            { c with ssl_ctx := some sctx,
                     errmsg := some ⟨"failed to set ECDH curve", []⟩ },
          trace := w.trace ++ [Event.SSL_CTX_new m (some sctx),
            Event.tls_configure_ssl ctx 0, Event.tls_configure_keypair ctx 0,
            Event.EC_KEY_new_by_curve_name c.config.ecdhcurve none] })) := by
  have hld : ∀ (e : List Event) (c1 : tls),
      World.load { heap := w.heap.set ctx c1, trace := e } ctx = some c1 := by
    intro e c1
    have := load_store_same (w := { heap := w.heap, trace := e }) c1 hctx
    simpa [World.store] using this
  refine ⟨?_, ?_, ?_, ?_⟩
  · intro hnew
    subst hm
    simp [tls_configure_server, hctx, tls_config_is_dtls, hnew, tls_set_error, World.emit,
      World.store, hld]
  · intro sctx r1 hnew hssl hr1
    subst hm
    simp [tls_configure_server, hctx, tls_config_is_dtls, hnew, World.emit,
      World.store, hssl, hr1]
  · intro sctx r2 hnew hssl hkp hr2
    subst hm
    simp [tls_configure_server, hctx, tls_config_is_dtls, hnew, World.emit,
      World.store, hssl, hkp, hr2]
  · intro sctx hnew hssl hkp h1 h2 hk
    rw [tls_configure_server_steps K E w ctx c m sctx hctx hm hnew hssl hkp]
    simp [h1, h2, hk]

/-- Instance of C5: the engine context cannot be created. -/
theorem tls_configure_server_failure_witness :
    tls_configure_server hdrConsts noCtxEngine
        { heap := [serverTls true (-1) none], trace := [] } 0 = some (-1,
      { heap := [{ serverTls true (-1) none with
          errmsg := some ⟨"ssl context failure", []⟩ }],
        trace := [Event.SSL_CTX_new Method.DTLSv1_server_method none] }) :=
  (tls_configure_server_failure hdrConsts noCtxEngine
    { heap := [serverTls true (-1) none], trace := [] } 0 (serverTls true (-1) none)
    Method.DTLSv1_server_method rfl rfl).1 rfl

/-- Against C6 as stated: with an explicit curve, generated key and a rejected
installation (`SSL_CTX_set_tmp_ecdh` returns 0), `tls_configure_server` returns
0, not -1. -/
theorem tls_configure_server_install_rejected :
    rejectInstallEngine.SSL_CTX_set_tmp_ecdh
        [Event.SSL_CTX_new Method.SSLv23_server_method (some 100),
          Event.tls_configure_ssl 0 0, Event.tls_configure_keypair 0 0,
          Event.EC_KEY_new_by_curve_name 415 (some 200),
          Event.SSL_CTX_set_options (some 100) 524288] (some 100) 200 = 0 ∧
    tls_configure_server hdrConsts rejectInstallEngine
        { heap := [serverTls false 415 none], trace := [] } 0 = some (0,
      { heap := [serverTls false 415 (some 100)],
        trace := [Event.SSL_CTX_new Method.SSLv23_server_method (some 100),
          Event.tls_configure_ssl 0 0, Event.tls_configure_keypair 0 0,
          Event.EC_KEY_new_by_curve_name 415 (some 200),
          Event.SSL_CTX_set_options (some 100) 524288,
          Event.SSL_CTX_set_tmp_ecdh (some 100) 200 0,
          Event.EC_KEY_free 200] }) ∧
    ¬ ∃ w1, tls_configure_server hdrConsts rejectInstallEngine
        { heap := [serverTls false 415 none], trace := [] } 0 = some (-1, w1) := by
  refine ⟨rfl, rfl, ?_⟩
  rintro ⟨w1, h⟩
  have h0 : tls_configure_server hdrConsts rejectInstallEngine
      { heap := [serverTls false 415 none], trace := [] } 0 = some (0,
      { heap := [serverTls false 415 (some 100)],
        trace := [Event.SSL_CTX_new Method.SSLv23_server_method (some 100),
          Event.tls_configure_ssl 0 0, Event.tls_configure_keypair 0 0,
          Event.EC_KEY_new_by_curve_name 415 (some 200),
          Event.SSL_CTX_set_options (some 100) 524288,
          Event.SSL_CTX_set_tmp_ecdh (some 100) 200 0,
          Event.EC_KEY_free 200] }) := rfl
  rw [h0] at h
  simp at h

/-- C6 as amended: with an explicit curve (and the earlier steps succeeding)
`tls_configure_server` returns -1 when key generation fails, and when key
generation succeeds it returns 0 whatever `SSL_CTX_set_tmp_ecdh` returns: that
result is recorded and not inspected, and the key is released afterwards. -/
theorem tls_configure_server_install_unchecked (K : Consts) (E : Engine) (w : World)
    (ctx : Ptr) (c : tls) (m : Method) (sctx : Handle)
    (hctx : w.load ctx = some c)
    (hm : m = if c.config.dtls = true then Method.DTLSv1_server_method
      else Method.SSLv23_server_method)
    (hnew : E.SSL_CTX_new w.trace m = some sctx)
    (hssl : E.tls_configure_ssl (w.trace ++ [Event.SSL_CTX_new m (some sctx)]) ctx = 0)
    (hkp : E.tls_configure_keypair (w.trace ++ [Event.SSL_CTX_new m (some sctx),
      Event.tls_configure_ssl ctx 0]) ctx = 0)
    (h1 : c.config.ecdhcurve ≠ -1) (h2 : c.config.ecdhcurve ≠ K.NID_undef) :
    ∃ (r : Int) (w1 : World), tls_configure_server K E w ctx = some (r, w1) ∧
      (r = -1 ↔ E.EC_KEY_new_by_curve_name (w.trace ++ [Event.SSL_CTX_new m (some sctx),
        Event.tls_configure_ssl ctx 0, Event.tls_configure_keypair ctx 0])
        c.config.ecdhcurve = none) ∧
      (∀ key : Handle,
        E.EC_KEY_new_by_curve_name (w.trace ++ [Event.SSL_CTX_new m (some sctx),
          Event.tls_configure_ssl ctx 0, Event.tls_configure_keypair ctx 0])
          c.config.ecdhcurve = some key →
        r = 0 ∧
        w1.trace = w.trace ++ [Event.SSL_CTX_new m (some sctx),
          Event.tls_configure_ssl ctx 0, Event.tls_configure_keypair ctx 0,
          Event.EC_KEY_new_by_curve_name c.config.ecdhcurve (some key),
          Event.SSL_CTX_set_options (some sctx) K.SSL_OP_SINGLE_ECDH_USE,
          Event.SSL_CTX_set_tmp_ecdh (some sctx) key
            (E.SSL_CTX_set_tmp_ecdh (w.trace ++ [Event.SSL_CTX_new m (some sctx),
              Event.tls_configure_ssl ctx 0, Event.tls_configure_keypair ctx 0,
              Event.EC_KEY_new_by_curve_name c.config.ecdhcurve (some key),
              Event.SSL_CTX_set_options (some sctx) K.SSL_OP_SINGLE_ECDH_USE])
              (some sctx) key),
          Event.EC_KEY_free key]) := by
  rw [tls_configure_server_steps K E w ctx c m sctx hctx hm hnew hssl hkp]
  simp only [h1, h2, if_false, ne_eq, not_false_eq_true, if_true]
  cases hk : E.EC_KEY_new_by_curve_name (w.trace ++ [Event.SSL_CTX_new m (some sctx),
      Event.tls_configure_ssl ctx 0, Event.tls_configure_keypair ctx 0])
      c.config.ecdhcurve with
  | none => exact ⟨-1, _, rfl, by simp, by intro key h; cases h⟩
  | some key =>
    refine ⟨0, _, rfl, by simp, ?_⟩
    intro key2 hkey2
    cases hkey2
    simp

/-- Instance of the amended C6 on the engine that rejects the installation. -/
theorem tls_configure_server_install_unchecked_witness :
    ∃ (r : Int) (w1 : World), tls_configure_server hdrConsts rejectInstallEngine
        { heap := [serverTls false 415 none], trace := [] } 0 = some (r, w1) ∧
      (r = -1 ↔ rejectInstallEngine.EC_KEY_new_by_curve_name
        [Event.SSL_CTX_new Method.SSLv23_server_method (some 100),
          Event.tls_configure_ssl 0 0, Event.tls_configure_keypair 0 0] 415 = none) ∧
      (∀ key : Handle,
        rejectInstallEngine.EC_KEY_new_by_curve_name
          [Event.SSL_CTX_new Method.SSLv23_server_method (some 100),
            Event.tls_configure_ssl 0 0, Event.tls_configure_keypair 0 0] 415 = some key →
        r = 0 ∧
        w1.trace = [Event.SSL_CTX_new Method.SSLv23_server_method (some 100),
          Event.tls_configure_ssl 0 0, Event.tls_configure_keypair 0 0,
          Event.EC_KEY_new_by_curve_name 415 (some key),
          Event.SSL_CTX_set_options (some 100) 524288,
          Event.SSL_CTX_set_tmp_ecdh (some 100) key
            (rejectInstallEngine.SSL_CTX_set_tmp_ecdh
              [Event.SSL_CTX_new Method.SSLv23_server_method (some 100),
                Event.tls_configure_ssl 0 0, Event.tls_configure_keypair 0 0,
                Event.EC_KEY_new_by_curve_name 415 (some key),
                Event.SSL_CTX_set_options (some 100) 524288] (some 100) key),
          Event.EC_KEY_free key]) :=
  tls_configure_server_install_unchecked hdrConsts rejectInstallEngine
    { heap := [serverTls false 415 none], trace := [] } 0 (serverTls false 415 none)
    Method.SSLv23_server_method 100 rfl rfl rfl rfl rfl (by decide) (by decide)

/-- The handshake attempt of `tls_accept_socket` on live objects, by the
engine's answers. -/
theorem tls_accept_handshake_eq (K : Consts) (E : Engine) (w : World) (ctx p : Ptr)
    (c cc : tls) (ret err : Int) (ev : Event)
    (hctx : w.load ctx = some c) (hp : w.load p = some cc)
    (hret : ret = if c.config.dtls = true then E.DTLSv1_listen w.trace cc.ssl_conn
      else E.SSL_accept w.trace cc.ssl_conn)
    (hev : ev = if c.config.dtls = true then Event.DTLSv1_listen cc.ssl_conn ret
      else Event.SSL_accept cc.ssl_conn ret)
    (herr : err = E.SSL_get_error (w.trace ++ [ev]) cc.ssl_conn ret) :
    tls_accept_handshake K E w ctx p =
      if ret = 1 then some (0, { heap := w.heap, trace := w.trace ++ [ev] })
      else if err = K.SSL_ERROR_WANT_READ then
        some (K.TLS_READ_AGAIN,
          { heap := w.heap,
            trace := w.trace ++ [ev, Event.SSL_get_error cc.ssl_conn ret err] })
      else if err = K.SSL_ERROR_WANT_WRITE then
        some (K.TLS_WRITE_AGAIN,
          { heap := w.heap,
            trace := w.trace ++ [ev, Event.SSL_get_error cc.ssl_conn ret err] })
      else
        some (-1,
          { heap := w.heap.set ctx
              { c with errmsg := some ⟨"ssl accept failure (%i)", [err]⟩ },
            trace := w.trace ++ [ev, Event.SSL_get_error cc.ssl_conn ret err] }) := by
  have hld : ∀ e : List Event,
      World.load { heap := w.heap, trace := e } ctx = some c := fun _ => hctx
  cases hd : c.config.dtls
  · simp only [hd, Bool.false_eq_true, if_false] at hret hev
    subst hret hev
    simp only [tls_accept_handshake, hctx, hp, tls_config_is_dtls, hd, Bool.false_eq_true,
      if_false, World.emit, ← herr, ne_eq, ite_not, tls_set_error, hld, World.store,
      List.append_assoc, List.singleton_append]
  · simp only [hd, if_true] at hret hev
    subst hret hev
    simp only [tls_accept_handshake, hctx, hp, tls_config_is_dtls, hd,
      if_true, World.emit, ← herr, ne_eq, ite_not, tls_set_error, hld, World.store,
      List.append_assoc, List.singleton_append]

/-- C3: on a server context and a populated slot, `tls_accept_socket` makes
exactly one handshake call (`DTLSv1_listen` for a DTLS config, `SSL_accept`
otherwise), followed by `SSL_get_error` when that call did not return 1, and
its return value is: 0 when the step returns 1; `TLS_READ_AGAIN` when the engine
error is `SSL_ERROR_WANT_READ`; `TLS_WRITE_AGAIN` when it is
`SSL_ERROR_WANT_WRITE` (the two constants being distinct); -1 with the message "ssl accept failure (%i)" carrying
the engine error otherwise.  The slot keeps its content. -/
theorem tls_accept_socket_handshake_result (K : Consts) (E : Engine) (w : World)
    (ctx p : Ptr) (socket : Int) (c cc : tls) (ret err : Int) (ev : Event)
    (hctx : w.load ctx = some c) (hflag : c.flags &&& K.TLS_SERVER ≠ 0)
    (hp : w.load p = some cc)
    (hret : ret = if c.config.dtls = true then E.DTLSv1_listen w.trace cc.ssl_conn
      else E.SSL_accept w.trace cc.ssl_conn)
    (hev : ev = if c.config.dtls = true then Event.DTLSv1_listen cc.ssl_conn ret
      else Event.SSL_accept cc.ssl_conn ret)
    (herr : err = E.SSL_get_error (w.trace ++ [ev]) cc.ssl_conn ret) :
    (ret = 1 →
      tls_accept_socket K E w ctx (some p) socket =
        some (0, some p, { heap := w.heap, trace := w.trace ++ [ev] })) ∧
    (ret ≠ 1 → err = K.SSL_ERROR_WANT_READ →
      tls_accept_socket K E w ctx (some p) socket =
        some (K.TLS_READ_AGAIN, some p,
          { heap := w.heap,
            trace := w.trace ++ [ev, Event.SSL_get_error cc.ssl_conn ret err] })) ∧
    (K.SSL_ERROR_WANT_READ ≠ K.SSL_ERROR_WANT_WRITE →
      ret ≠ 1 → err = K.SSL_ERROR_WANT_WRITE →
      tls_accept_socket K E w ctx (some p) socket =
        some (K.TLS_WRITE_AGAIN, some p,
          { heap := w.heap,
            trace := w.trace ++ [ev, Event.SSL_get_error cc.ssl_conn ret err] })) ∧
    (ret ≠ 1 → err ≠ K.SSL_ERROR_WANT_READ → err ≠ K.SSL_ERROR_WANT_WRITE →
      tls_accept_socket K E w ctx (some p) socket =
        some (-1, some p,
          { heap := w.heap.set ctx
              { c with errmsg := some ⟨"ssl accept failure (%i)", [err]⟩ },
            trace := w.trace ++ [ev, Event.SSL_get_error cc.ssl_conn ret err] })) := by
  have hh := tls_accept_handshake_eq K E w ctx p c cc ret err ev hctx hp hret hev herr
  have hacc : tls_accept_socket K E w ctx (some p) socket =
      match tls_accept_handshake K E w ctx p with
      | none => none
      | some (r, w1) => some (r, some p, w1) := by
    simp [tls_accept_socket, hctx, hflag]
  rw [hacc, hh]
  refine ⟨?_, ?_, ?_, ?_⟩
  · intro h1
    simp [h1]
  · intro h1 h2
    simp [h1, h2]
  · intro hK h1 h2
    have h3 : err ≠ K.SSL_ERROR_WANT_READ := by rw [h2]; exact fun h => hK h.symm
    rw [if_neg h1, if_neg h3, if_pos h2]
  · intro h1 h2 h3
    simp [h1, h2, h3]

/-- Instance of C3: a populated slot and a stream handshake step that wants to
read. -/
theorem tls_accept_socket_handshake_result_witness :
    tls_accept_socket hdrConsts wantReadEngine
        { heap := [serverTls false 0 (some 100),
            { blankTls false 0 with flags := 4, socket := 5, ssl_conn := some 300 }],
          trace := [] } 0 (some 1) 5 =
      some (-2, some 1,
        { heap := [serverTls false 0 (some 100),
            { blankTls false 0 with flags := 4, socket := 5, ssl_conn := some 300 }],
          trace := [Event.SSL_accept (some 300) (-1),
            Event.SSL_get_error (some 300) (-1) 2] }) :=
  (tls_accept_socket_handshake_result hdrConsts wantReadEngine
    { heap := [serverTls false 0 (some 100),
        { blankTls false 0 with flags := 4, socket := 5, ssl_conn := some 300 }],
      trace := [] } 0 1 5 (serverTls false 0 (some 100))
    { blankTls false 0 with flags := 4, socket := 5, ssl_conn := some 300 }
    (-1) 2 (Event.SSL_accept (some 300) (-1))
    rfl (by decide) rfl rfl rfl rfl).2.1 (by decide) rfl

theorem load_append_left {w : World} {p : Ptr} {c : tls} (l : List tls) (e : List Event)
    (h : w.load p = some c) :
    World.load { heap := w.heap ++ l, trace := e } p = some c := by
  have hlt := load_lt h
  unfold World.load at h ⊢
  simp only [List.getElem?_append_left hlt, h]

theorem load_append_new (w : World) (c : tls) (e : List Event) :
    World.load { heap := w.heap ++ [c], trace := e } w.heap.length = some c := by
  simp [World.load]

theorem tls_server_conn_ok (K : Consts) (E : Engine) (w : World) (ctx : Ptr) (c0 : tls)
    (hnew : E.tls_new w.trace = some c0) :
    tls_server_conn K E w ctx = some (some w.heap.length,
      { heap := w.heap ++ [{ c0 with flags := c0.flags ||| K.TLS_SERVER_CONN }],
        trace := w.trace ++ [Event.tls_new (some w.heap.length)] }) := by
  simp [tls_server_conn, tls_new, hnew, load_append_new, World.store]

theorem tls_server_conn_null (K : Consts) (E : Engine) (w : World) (ctx : Ptr)
    (hnew : E.tls_new w.trace = none) :
    tls_server_conn K E w ctx = some (none, w.emit (Event.tls_new none)) := by
  simp [tls_server_conn, tls_new, hnew]

/-- The first call on an empty slot, once the connection context has been
allocated: lines 109-129 followed by the handshake attempt. -/
theorem tls_accept_socket_empty_eq (K : Consts) (E : Engine) (w : World) (ctx : Ptr)
    (socket : Int) (c c0 : tls)
    (hctx : w.load ctx = some c) (hflag : c.flags &&& K.TLS_SERVER ≠ 0)
    (hnew : E.tls_new w.trace = some c0) :
    tls_accept_socket K E w ctx none socket =
      (let p := w.heap.length
      let t1 := w.trace ++ [Event.tls_new (some p)]
      let s := E.SSL_new t1 c.ssl_ctx
      let t2 := w.trace ++ [Event.tls_new (some p), Event.SSL_new c.ssl_ctx s]
      let conn : tls :=
        { c0 with flags := c0.flags ||| K.TLS_SERVER_CONN, socket := socket, ssl_conn := s }
      match s with
      | none =>
        some (-1, some p,
          { heap := w.heap.set ctx { c with errmsg := some ⟨"ssl failure", []⟩ } ++ [conn],
            trace := t2 })
      | some _ =>
        if c.config.dtls = true then
          let bio := E.BIO_new_dgram t2 socket K.BIO_NOCLOSE
          match tls_accept_handshake K E
            { heap := w.heap ++ [conn],
              trace := w.trace ++ [Event.tls_new (some p), Event.SSL_new c.ssl_ctx s,
                Event.BIO_new_dgram socket K.BIO_NOCLOSE bio, Event.SSL_set_bio s bio bio,
                Event.SSL_set_app_data s p] } ctx p with
          | none => none
          | some (r, w7) => some (r, some p, w7)
        else
          let r := E.SSL_set_fd t2 s socket
          if r ≠ 1 then
            some (-1, some p,
              { heap := w.heap.set ctx
                  { c with errmsg := some ⟨"ssl set fd failure", []⟩ } ++ [conn],
                trace := w.trace ++ [Event.tls_new (some p), Event.SSL_new c.ssl_ctx s,
                  Event.SSL_set_fd s socket r] })
          else
            match tls_accept_handshake K E
              { heap := w.heap ++ [conn],
                trace := w.trace ++ [Event.tls_new (some p), Event.SSL_new c.ssl_ctx s,
                  Event.SSL_set_fd s socket r, Event.SSL_set_app_data s p] } ctx p with
            | none => none
            | some (r, w6) => some (r, some p, w6)) := by
  have hlt := load_lt hctx
  have hld : ∀ (x : tls) (e : List Event),
      World.load { heap := w.heap ++ [x], trace := e } ctx = some c :=
    fun x e => load_append_left [x] e hctx
  have hld2 : ∀ (x : tls) (e : List Event),
      World.load { heap := w.heap ++ [x], trace := e } w.heap.length = some x :=
    fun x e => load_append_new w x e
  simp only [tls_accept_socket, hctx, hflag, if_false, tls_server_conn_ok K E w ctx c0 hnew,
    hld2, World.store, List.set_append_right _ _ (Nat.le_refl _), Nat.sub_self, List.set_cons_zero,
    hld, World.emit, List.append_assoc, List.singleton_append, tls_config_is_dtls]
  cases hs : E.SSL_new (w.trace ++ [Event.tls_new (some w.heap.length)]) c.ssl_ctx with
  | none =>
    simp [tls_set_error, hld, World.store, List.set_append_left _ _ hlt]
  | some ssl =>
    by_cases hd : c.config.dtls = true
    · simp [hd]
    · simp only [hd, if_false, List.cons_append, List.nil_append]
      by_cases hfd : E.SSL_set_fd (w.trace ++ [Event.tls_new (some w.heap.length),
          Event.SSL_new c.ssl_ctx (some ssl)]) (some ssl) socket = 1
      · simp [hfd]
      · simp [hfd, tls_set_error, hld, World.store, List.set_append_left _ _ hlt]

/-- Every path of the handshake attempt: it returns, appends one handshake
call (and `SSL_get_error` after a result other than 1), and writes at most the
error message of `ctx`, and that only when it returns -1. -/
theorem tls_accept_handshake_frame (K : Consts) (E : Engine) (w : World) (ctx p : Ptr)
    (socket : Int) (c cc : tls) (hctx : w.load ctx = some c) (hp : w.load p = some cc) :
    ∃ (r : Int) (w1 : World) (t : List Event),
      tls_accept_handshake K E w ctx p = some (r, w1) ∧
      w1.trace = w.trace ++ t ∧
      (∀ e ∈ t, e.isCreation = false ∧ e.isAcceptCall K socket = true) ∧
      (w1.heap = w.heap ∨
        (r = -1 ∧ ∃ m, w1.heap = w.heap.set ctx { c with errmsg := some m })) ∧
      (r = 0 ∨ r = K.TLS_READ_AGAIN ∨ r = K.TLS_WRITE_AGAIN ∨ r = -1) := by
  obtain ⟨ret, hret⟩ : ∃ ret : Int, ret = if c.config.dtls = true
      then E.DTLSv1_listen w.trace cc.ssl_conn else E.SSL_accept w.trace cc.ssl_conn :=
    ⟨_, rfl⟩
  obtain ⟨ev, hev⟩ : ∃ ev : Event, ev = if c.config.dtls = true
      then Event.DTLSv1_listen cc.ssl_conn ret else Event.SSL_accept cc.ssl_conn ret :=
    ⟨_, rfl⟩
  obtain ⟨err, herr⟩ : ∃ err : Int, err = E.SSL_get_error (w.trace ++ [ev]) cc.ssl_conn ret :=
    ⟨_, rfl⟩
  rw [tls_accept_handshake_eq K E w ctx p c cc ret err ev hctx hp hret hev herr]
  have hevp : ev.isCreation = false ∧ ev.isAcceptCall K socket = true := by
    rw [hev]
    split_ifs <;> exact ⟨rfl, rfl⟩
  have hmem : ∀ e ∈ [ev, Event.SSL_get_error cc.ssl_conn ret err],
      e.isCreation = false ∧ e.isAcceptCall K socket = true := by
    intro e he
    simp only [List.mem_cons, List.mem_singleton, List.not_mem_nil, or_false] at he
    rcases he with he | he
    · rw [he]; exact hevp
    · rw [he]; exact ⟨rfl, rfl⟩
  by_cases h1 : ret = 1
  · rw [if_pos h1]
    refine ⟨_, _, [ev], rfl, rfl, ?_, Or.inl rfl, Or.inl rfl⟩
    intro e he
    rw [List.mem_singleton] at he
    rw [he]; exact hevp
  · rw [if_neg h1]
    by_cases h2 : err = K.SSL_ERROR_WANT_READ
    · rw [if_pos h2]
      exact ⟨_, _, _, rfl, rfl, hmem, Or.inl rfl, Or.inr (Or.inl rfl)⟩
    · rw [if_neg h2]
      by_cases h3 : err = K.SSL_ERROR_WANT_WRITE
      · rw [if_pos h3]
        exact ⟨_, _, _, rfl, rfl, hmem, Or.inl rfl, Or.inr (Or.inr (Or.inl rfl))⟩
      · rw [if_neg h3]
        exact ⟨_, _, _, rfl, rfl, hmem, Or.inr ⟨rfl, _, rfl⟩, Or.inr (Or.inr (Or.inr rfl))⟩

/-- A call on a server context that finds the slot populated: only the
handshake attempt runs. -/
theorem tls_accept_socket_populated (K : Consts) (E : Engine) (w : World) (ctx p : Ptr)
    (socket : Int) (c cc : tls) (hctx : w.load ctx = some c)
    (hflag : c.flags &&& K.TLS_SERVER ≠ 0) (hp : w.load p = some cc) :
    ∃ (r : Int) (w1 : World) (t : List Event),
      tls_accept_socket K E w ctx (some p) socket = some (r, some p, w1) ∧
      w1.trace = w.trace ++ t ∧
      (∀ e ∈ t, e.isCreation = false ∧ e.isAcceptCall K socket = true) ∧
      (w1.heap = w.heap ∨
        (r = -1 ∧ ∃ m, w1.heap = w.heap.set ctx { c with errmsg := some m })) ∧
      (r = 0 ∨ r = K.TLS_READ_AGAIN ∨ r = K.TLS_WRITE_AGAIN ∨ r = -1) := by
  obtain ⟨r, w1, t, hh, ht, hev, hheap, hr⟩ :=
    tls_accept_handshake_frame K E w ctx p socket c cc hctx hp
  refine ⟨r, w1, t, ?_, ht, hev, hheap, hr⟩
  simp [tls_accept_socket, hctx, hflag, hh]

/-- Every path of `tls_accept_socket`, whatever the slot holds: the call
returns one of the four codes, appends only calls of `Event.isAcceptCall`,
keeps every object of the heap (adding at most the new connection context) and
writes at most the error message of `ctx`, that only when it returns -1. -/
theorem tls_accept_socket_frame (K : Consts) (E : Engine) (w : World) (ctx : Ptr)
    (cctx : Option Ptr) (socket : Int) (c : tls) (hctx : w.load ctx = some c)
    (hslot : ∀ p, cctx = some p → ∃ cc, w.load p = some cc) :
    ∃ (r : Int) (slot1 : Option Ptr) (w1 : World) (t : List Event) (l : List tls),
      tls_accept_socket K E w ctx cctx socket = some (r, slot1, w1) ∧
      w1.trace = w.trace ++ t ∧
      (∀ e ∈ t, e.isAcceptCall K socket = true) ∧
      (w1.heap = w.heap ++ l ∨
        (r = -1 ∧ ∃ m, w1.heap = w.heap.set ctx { c with errmsg := some m } ++ l)) ∧
      (r = 0 ∨ r = K.TLS_READ_AGAIN ∨ r = K.TLS_WRITE_AGAIN ∨ r = -1) ∧
      ((slot1 = cctx ∧ l = []) ∨
        (cctx = none ∧ slot1 = some w.heap.length ∧ ∃ conn, l = [conn])) := by
  have hlt := load_lt hctx
  by_cases hflag : c.flags &&& K.TLS_SERVER = 0
  · obtain ⟨w1, h1, h2, h3⟩ := tls_accept_socket_not_server_aux K E w ctx cctx socket c hctx hflag
    exact ⟨-1, cctx, w1, [], [], h1, by simp [h2], by simp,
      Or.inr ⟨rfl, ⟨"not a server context", []⟩, by simp [h3]⟩, by simp, Or.inl ⟨rfl, rfl⟩⟩
  · cases cctx with
    | some p =>
      obtain ⟨cc, hp⟩ := hslot p rfl
      obtain ⟨r, w1, t, h1, h2, h3, h4, h5⟩ :=
        tls_accept_socket_populated K E w ctx p socket c cc hctx hflag hp
      refine ⟨r, some p, w1, t, [], h1, h2, fun e he => (h3 e he).2, ?_, h5, Or.inl ⟨rfl, rfl⟩⟩
      simpa using h4
    | none =>
      cases hnew : E.tls_new w.trace with
      | none =>
        refine ⟨-1, none,
          { heap := w.heap.set ctx
              { c with errmsg := some ⟨"connection context failure", []⟩ },
            trace := w.trace ++ [Event.tls_new none] },
          [Event.tls_new none], [], ?_, rfl, ?_,
          Or.inr ⟨rfl, ⟨"connection context failure", []⟩, by simp⟩,
          by simp, Or.inl ⟨rfl, rfl⟩⟩
        · have hld : World.load
              { heap := w.heap, trace := w.trace ++ [Event.tls_new none] } ctx = some c := hctx
          simp [tls_accept_socket, hctx, hflag, tls_server_conn_null K E w ctx hnew,
            tls_set_error, hld, World.store, World.emit]
        · intro e he
          rw [List.mem_singleton] at he
          rw [he]; rfl
      | some c0 =>
        rw [tls_accept_socket_empty_eq K E w ctx socket c c0 hctx hflag hnew]
        dsimp only
        cases hs : E.SSL_new (w.trace ++ [Event.tls_new (some w.heap.length)]) c.ssl_ctx with
        | none =>
          refine ⟨_, _, _, [Event.tls_new (some w.heap.length), Event.SSL_new c.ssl_ctx none],
            _, rfl, rfl, ?_, Or.inr ⟨rfl, _, rfl⟩, by simp, Or.inr ⟨rfl, rfl, _, rfl⟩⟩
          intro e he
          simp only [List.mem_cons, List.mem_singleton, List.not_mem_nil, or_false] at he
          rcases he with he | he <;> rw [he] <;> rfl
        | some ssl =>
          obtain ⟨conn, hcn⟩ : ∃ conn : tls, conn = { c0 with
              flags := c0.flags ||| K.TLS_SERVER_CONN, socket := socket,
              ssl_conn := some ssl } := ⟨_, rfl⟩
          rw [← hcn]
          have hconn : ∀ e : List Event, World.load
              { heap := w.heap ++ [conn], trace := e } w.heap.length = some conn :=
            fun e => load_append_new w _ e
          by_cases hd : c.config.dtls = true
          · simp only [hd, if_true]
            obtain ⟨bio, hbio⟩ : ∃ bio : Option Handle, bio = E.BIO_new_dgram
                (w.trace ++ [Event.tls_new (some w.heap.length),
                  Event.SSL_new c.ssl_ctx (some ssl)]) socket K.BIO_NOCLOSE := ⟨_, rfl⟩
            rw [← hbio]
            obtain ⟨r, w7, t, h1, h2, h3, h4, h5⟩ :=
              tls_accept_handshake_frame K E
                { heap := w.heap ++ [conn],
                  trace := w.trace ++ [Event.tls_new (some w.heap.length),
                    Event.SSL_new c.ssl_ctx (some ssl),
                    Event.BIO_new_dgram socket K.BIO_NOCLOSE bio,
                    Event.SSL_set_bio (some ssl) bio bio,
                    Event.SSL_set_app_data (some ssl) w.heap.length] }
                ctx w.heap.length socket c conn
                (load_append_left _ _ hctx) (hconn _)
            rw [h1]
            refine ⟨r, _, w7, [Event.tls_new (some w.heap.length),
                Event.SSL_new c.ssl_ctx (some ssl),
                Event.BIO_new_dgram socket K.BIO_NOCLOSE bio,
                Event.SSL_set_bio (some ssl) bio bio,
                Event.SSL_set_app_data (some ssl) w.heap.length] ++ t, [conn], rfl, ?_, ?_, ?_,
              h5, Or.inr ⟨trivial, rfl, conn, rfl⟩⟩
            · rw [h2, List.append_assoc]
            · intro e he
              rw [List.mem_append] at he
              rcases he with he | he
              · simp only [List.mem_cons, List.mem_singleton, List.not_mem_nil, or_false] at he
                rcases he with he | he | he | he | he <;> rw [he] <;> simp [Event.isAcceptCall]
              · exact (h3 e he).2
            · rcases h4 with h4 | ⟨h4, m, h6⟩
              · exact Or.inl h4
              · refine Or.inr ⟨h4, m, ?_⟩
                rw [h6, List.set_append_left _ _ hlt]
          · simp only [hd, Bool.false_eq_true, if_false]
            by_cases hfd : E.SSL_set_fd (w.trace ++ [Event.tls_new (some w.heap.length),
                Event.SSL_new c.ssl_ctx (some ssl)]) (some ssl) socket = 1
            · simp only [hfd, ne_eq, not_true_eq_false, if_false]
              obtain ⟨r, w7, t, h1, h2, h3, h4, h5⟩ :=
                tls_accept_handshake_frame K E
                  { heap := w.heap ++ [conn],
                    trace := w.trace ++ [Event.tls_new (some w.heap.length),
                      Event.SSL_new c.ssl_ctx (some ssl),
                      Event.SSL_set_fd (some ssl) socket 1,
                      Event.SSL_set_app_data (some ssl) w.heap.length] }
                  ctx w.heap.length socket c conn
                  (load_append_left _ _ hctx) (hconn _)
              rw [h1]
              refine ⟨r, _, w7, [Event.tls_new (some w.heap.length),
                  Event.SSL_new c.ssl_ctx (some ssl),
                  Event.SSL_set_fd (some ssl) socket 1,
                  Event.SSL_set_app_data (some ssl) w.heap.length] ++ t, [conn], rfl, ?_, ?_, ?_,
                h5, Or.inr ⟨trivial, rfl, conn, rfl⟩⟩
              · rw [h2, List.append_assoc]
              · intro e he
                rw [List.mem_append] at he
                rcases he with he | he
                · simp only [List.mem_cons, List.mem_singleton, List.not_mem_nil,
                    or_false] at he
                  rcases he with he | he | he | he <;> rw [he] <;> simp [Event.isAcceptCall]
                · exact (h3 e he).2
              · rcases h4 with h4 | ⟨h4, m, h6⟩
                · exact Or.inl h4
                · refine Or.inr ⟨h4, m, ?_⟩
                  rw [h6, List.set_append_left _ _ hlt]
            · simp only [hfd, ne_eq, not_false_eq_true, if_true]
              refine ⟨_, _, _, [Event.tls_new (some w.heap.length),
                Event.SSL_new c.ssl_ctx (some ssl), Event.SSL_set_fd (some ssl) socket _],
                _, rfl, rfl, ?_, Or.inr ⟨rfl, _, rfl⟩, by simp, Or.inr ⟨trivial, rfl, _, rfl⟩⟩
              intro e he
              simp only [List.mem_cons, List.mem_singleton, List.not_mem_nil, or_false] at he
              rcases he with he | he | he <;> rw [he] <;> simp [Event.isAcceptCall]

/-- What a heap as left by `tls_accept_socket` holds at an address that was
live before: the same object, up to the error message when the address is
`ctx` and the call returned -1. -/
theorem load_frame {w w1 : World} {ctx : Ptr} {c : tls} {r : Int} {l : List tls}
    (hctx : w.load ctx = some c)
    (hheap : w1.heap = w.heap ++ l ∨
      (r = -1 ∧ ∃ m, w1.heap = w.heap.set ctx { c with errmsg := some m } ++ l))
    {q : Ptr} {x : tls} (hq : w.load q = some x) :
    ∃ y, w1.load q = some y ∧ y = { x with errmsg := y.errmsg } ∧
      (q ≠ ctx → y = x) ∧ (r ≠ -1 → y = x) := by
  have hqlt := load_lt hq
  rcases hheap with h | ⟨hr, m, h⟩
  · refine ⟨x, ?_, rfl, fun _ => rfl, fun _ => rfl⟩
    unfold World.load at hq ⊢
    rw [h, List.getElem?_append_left hqlt, hq]
  · by_cases hqc : q = ctx
    · subst hqc
      rw [hctx] at hq
      cases hq
      refine ⟨{ c with errmsg := some m }, ?_, rfl, fun h => absurd rfl h,
        fun h => absurd hr h⟩
      unfold World.load
      rw [h, List.getElem?_append_left (by simpa using hqlt)]
      simp [List.getElem?_set, hqlt]
    · refine ⟨x, ?_, rfl, fun _ => rfl, fun h => absurd hr h⟩
      unfold World.load at hq ⊢
      rw [h, List.getElem?_append_left (by simpa using hqlt), List.getElem?_set]
      simp [Ne.symm hqc, hq]

theorem isAlloc_of_not_creation {e : Event} (h : e.isCreation = false) :
    e.isAlloc = false := by
  cases e <;> simp [Event.isCreation, Event.isAlloc] at h ⊢

theorem isSessionNew_of_not_creation {e : Event} (h : e.isCreation = false) :
    e.isSessionNew = false := by
  cases e <;> simp [Event.isCreation, Event.isSessionNew] at h ⊢

theorem countP_isAlloc_zero {t : List Event} (h : ∀ e ∈ t, e.isCreation = false) :
    t.countP Event.isAlloc = 0 := by
  rw [List.countP_eq_zero]
  intro e he
  simp [isAlloc_of_not_creation (h e he)]

theorem countP_isSessionNew_zero {t : List Event} (h : ∀ e ∈ t, e.isCreation = false) :
    t.countP Event.isSessionNew = 0 := by
  rw [List.countP_eq_zero]
  intro e he
  simp [isSessionNew_of_not_creation (h e he)]

/-- The first call on an empty slot whose allocation succeeds: the slot gets
the new context, which holds the socket and the result of the one `SSL_new`
call; one allocation and one session creation are recorded. -/
theorem tls_accept_socket_first (K : Consts) (E : Engine) (w : World) (ctx : Ptr)
    (socket : Int) (c c0 : tls)
    (hctx : w.load ctx = some c) (hflag : c.flags &&& K.TLS_SERVER ≠ 0)
    (hnew : E.tls_new w.trace = some c0) :
    ∃ (r : Int) (w1 : World) (t : List Event) (conn : tls),
      tls_accept_socket K E w ctx none socket = some (r, some w.heap.length, w1) ∧
      w1.trace = w.trace ++ t ∧
      t.countP Event.isAlloc = 1 ∧ t.countP Event.isSessionNew = 1 ∧
      (w1.heap = w.heap ++ [conn] ∨
        (r = -1 ∧ ∃ m, w1.heap = w.heap.set ctx { c with errmsg := some m } ++ [conn])) ∧
      conn = { c0 with flags := c0.flags ||| K.TLS_SERVER_CONN, socket := socket,
                       ssl_conn := E.SSL_new (w.trace ++ [Event.tls_new (some w.heap.length)])
                         c.ssl_ctx } := by
  have hlt := load_lt hctx
  rw [tls_accept_socket_empty_eq K E w ctx socket c c0 hctx hflag hnew]
  dsimp only
  cases hs : E.SSL_new (w.trace ++ [Event.tls_new (some w.heap.length)]) c.ssl_ctx with
  | none =>
    exact ⟨_, _, [Event.tls_new (some w.heap.length), Event.SSL_new c.ssl_ctx none], _,
      rfl, rfl, rfl, rfl, Or.inr ⟨rfl, _, rfl⟩, rfl⟩
  | some ssl =>
    obtain ⟨conn, hcn⟩ : ∃ conn : tls, conn = { c0 with
        flags := c0.flags ||| K.TLS_SERVER_CONN, socket := socket,
        ssl_conn := some ssl } := ⟨_, rfl⟩
    rw [← hcn]
    have hconn : ∀ e : List Event, World.load
        { heap := w.heap ++ [conn], trace := e } w.heap.length = some conn :=
      fun e => load_append_new w _ e
    by_cases hd : c.config.dtls = true
    · simp only [hd, if_true]
      obtain ⟨bio, hbio⟩ : ∃ bio : Option Handle, bio = E.BIO_new_dgram
          (w.trace ++ [Event.tls_new (some w.heap.length),
            Event.SSL_new c.ssl_ctx (some ssl)]) socket K.BIO_NOCLOSE := ⟨_, rfl⟩
      rw [← hbio]
      obtain ⟨r, w7, t, h1, h2, h3, h4, _⟩ :=
        tls_accept_handshake_frame K E
          { heap := w.heap ++ [conn],
            trace := w.trace ++ [Event.tls_new (some w.heap.length),
              Event.SSL_new c.ssl_ctx (some ssl),
              Event.BIO_new_dgram socket K.BIO_NOCLOSE bio,
              Event.SSL_set_bio (some ssl) bio bio,
              Event.SSL_set_app_data (some ssl) w.heap.length] }
          ctx w.heap.length socket c conn
          (load_append_left _ _ hctx) (hconn _)
      rw [h1]
      refine ⟨r, w7, [Event.tls_new (some w.heap.length),
          Event.SSL_new c.ssl_ctx (some ssl),
          Event.BIO_new_dgram socket K.BIO_NOCLOSE bio,
          Event.SSL_set_bio (some ssl) bio bio,
          Event.SSL_set_app_data (some ssl) w.heap.length] ++ t, conn, rfl, ?_, ?_, ?_, ?_, rfl⟩
      · rw [h2, List.append_assoc]
      · rw [List.countP_append, countP_isAlloc_zero (fun e he => (h3 e he).1)]
        rfl
      · rw [List.countP_append, countP_isSessionNew_zero (fun e he => (h3 e he).1)]
        rfl
      · rcases h4 with h4 | ⟨h4, m, h6⟩
        · exact Or.inl h4
        · refine Or.inr ⟨h4, m, ?_⟩
          rw [h6, List.set_append_left _ _ hlt]
    · simp only [hd, Bool.false_eq_true, if_false]
      by_cases hfd : E.SSL_set_fd (w.trace ++ [Event.tls_new (some w.heap.length),
          Event.SSL_new c.ssl_ctx (some ssl)]) (some ssl) socket = 1
      · simp only [hfd, ne_eq, not_true_eq_false, if_false]
        obtain ⟨r, w7, t, h1, h2, h3, h4, _⟩ :=
          tls_accept_handshake_frame K E
            { heap := w.heap ++ [conn],
              trace := w.trace ++ [Event.tls_new (some w.heap.length),
                Event.SSL_new c.ssl_ctx (some ssl),
                Event.SSL_set_fd (some ssl) socket 1,
                Event.SSL_set_app_data (some ssl) w.heap.length] }
            ctx w.heap.length socket c conn
            (load_append_left _ _ hctx) (hconn _)
        rw [h1]
        refine ⟨r, w7, [Event.tls_new (some w.heap.length),
            Event.SSL_new c.ssl_ctx (some ssl),
            Event.SSL_set_fd (some ssl) socket 1,
            Event.SSL_set_app_data (some ssl) w.heap.length] ++ t, conn, rfl, ?_, ?_, ?_, ?_, rfl⟩
        · rw [h2, List.append_assoc]
        · rw [List.countP_append, countP_isAlloc_zero (fun e he => (h3 e he).1)]
          rfl
        · rw [List.countP_append, countP_isSessionNew_zero (fun e he => (h3 e he).1)]
          rfl
        · rcases h4 with h4 | ⟨h4, m, h6⟩
          · exact Or.inl h4
          · refine Or.inr ⟨h4, m, ?_⟩
            rw [h6, List.set_append_left _ _ hlt]
      · simp only [hfd, ne_eq, not_false_eq_true, if_true]
        exact ⟨_, _, [Event.tls_new (some w.heap.length),
          Event.SSL_new c.ssl_ctx (some ssl), Event.SSL_set_fd (some ssl) socket _], conn,
          rfl, rfl, rfl, rfl, Or.inr ⟨rfl, _, rfl⟩, rfl⟩

/-- Calls that find the slot populated, any number of them: the slot keeps
pointing at the same context, whose socket and session do not change, and no
creation call is made. -/
theorem accept_calls_populated (K : Consts) (E : Engine) (ctx p : Ptr) (ss : List Int) :
    ∀ (w : World) (c cc : tls), w.load ctx = some c → c.flags &&& K.TLS_SERVER ≠ 0 →
      w.load p = some cc →
      ∃ (rs : List Int) (w1 : World) (t : List Event) (cc1 : tls),
        accept_calls K E ctx w (some p) ss = some (rs, some p, w1) ∧
        rs.length = ss.length ∧
        w1.trace = w.trace ++ t ∧ (∀ e ∈ t, e.isCreation = false) ∧
        w1.load p = some cc1 ∧ cc1.socket = cc.socket ∧ cc1.ssl_conn = cc.ssl_conn := by
  induction ss with
  | nil =>
    intro w c cc _ _ hp
    exact ⟨[], w, [], cc, rfl, rfl, by simp, by simp, hp, rfl, rfl⟩
  | cons s ss ih =>
    intro w c cc hctx hflag hp
    obtain ⟨r, wA, tA, h1, h2, h3, h4, _⟩ :=
      tls_accept_socket_populated K E w ctx p s c cc hctx hflag hp
    have h4a : wA.heap = w.heap ++ [] ∨
        (r = -1 ∧ ∃ m, wA.heap = w.heap.set ctx { c with errmsg := some m } ++ []) := by
      simpa using h4
    obtain ⟨c1, hc1, hc1eq, _, _⟩ := load_frame hctx h4a hctx
    obtain ⟨cc0, hcc0, hcc0eq, _, _⟩ := load_frame hctx h4a hp
    have hf1 : c1.flags = c.flags := by rw [hc1eq]
    have hs1 : cc0.socket = cc.socket := by rw [hcc0eq]
    have hs2 : cc0.ssl_conn = cc.ssl_conn := by rw [hcc0eq]
    obtain ⟨rs, w1, t, cc1, g1, g2, g3, g4, g5, g6, g7⟩ :=
      ih wA c1 cc0 hc1 (by rw [hf1]; exact hflag) hcc0
    refine ⟨r :: rs, w1, tA ++ t, cc1, ?_, ?_, ?_, ?_, g5, g6.trans hs1, g7.trans hs2⟩
    · simp [accept_calls, h1, g1]
    · simp [g2]
    · rw [g3, h2, List.append_assoc]
    · intro e he
      rcases List.mem_append.1 he with h | h
      · exact (h3 e h).1
      · exact g4 e h

theorem load_new_of_heap {w w1 : World} (ctx : Ptr) (x : tls) (r : Int) {conn : tls}
    (h : w1.heap = w.heap ++ [conn] ∨
      (r = -1 ∧ ∃ m, w1.heap = w.heap.set ctx { x with errmsg := some m } ++ [conn])) :
    w1.load w.heap.length = some conn := by
  unfold World.load
  rcases h with h | ⟨_, m, h⟩
  · rw [h]
    simp
  · rw [h]
    have hlen : (w.heap.set ctx { x with errmsg := some m }).length = w.heap.length := by simp
    rw [← hlen]
    exact List.getElem?_concat_length _ _

/-- Against C2 as stated: on a server context and an empty slot, when the
allocation of the first call fails the slot stays empty, and the second call
on the same slot runs the creation step: two allocation calls are made and the
connection context is created by the second call, not the first. -/
theorem accept_calls_creation_on_second_call :
    tls_accept_socket hdrConsts flakyAllocEngine
        { heap := [serverTls false 0 (some 100)], trace := [] } 0 none 5 =
      some (-1, none,
        { heap := [{ serverTls false 0 (some 100) with
            errmsg := some ⟨"connection context failure", []⟩ }],
          trace := [Event.tls_new none] }) ∧
    accept_calls hdrConsts flakyAllocEngine 0
        { heap := [serverTls false 0 (some 100)], trace := [] } none [5, 5] =
      some ([-1, 0], some 1,
        { heap := [{ serverTls false 0 (some 100) with
              errmsg := some ⟨"connection context failure", []⟩ },
            { blankTls false 0 with flags := 4, socket := 5, ssl_conn := some 300 }],
          trace := [Event.tls_new none, Event.tls_new (some 1),
            Event.SSL_new (some 100) (some 300), Event.SSL_set_fd (some 300) 5 1,
            Event.SSL_set_app_data (some 300) 1, Event.SSL_accept (some 300) 1] }) ∧
    List.countP Event.isAlloc [Event.tls_new none, Event.tls_new (some 1),
      Event.SSL_new (some 100) (some 300), Event.SSL_set_fd (some 300) 5 1,
      Event.SSL_set_app_data (some 300) 1, Event.SSL_accept (some 300) 1] = 2 := by
  refine ⟨by rfl, by rfl, by rfl⟩

/-- C2 as amended: (1) every call on a server context that finds the slot
populated leaves the slot pointing at the same context, makes no creation call
(no allocation, session creation, transport binding or back-reference) and
leaves that context's socket and session unchanged, whatever socket is passed;
(2) in every sequence of calls on one slot that starts with the slot empty and
whose first allocation succeeds, the creation step runs in the first call and
only there: the first call records exactly one allocation and one session
creation, the later calls record no creation call, the slot points at the
context allocated by the first call throughout, and that context ends with the
first call's socket and the session created by the first call. -/
theorem tls_accept_socket_creation_once (K : Consts) (E : Engine) (w : World)
    (ctx : Ptr) (c : tls)
    (hctx : w.load ctx = some c) (hflag : c.flags &&& K.TLS_SERVER ≠ 0) :
    (∀ (p : Ptr) (cc : tls) (socket : Int), w.load p = some cc →
      ∃ (r : Int) (w1 : World) (t : List Event) (cc1 : tls),
        tls_accept_socket K E w ctx (some p) socket = some (r, some p, w1) ∧
        w1.trace = w.trace ++ t ∧ (∀ e ∈ t, e.isCreation = false) ∧
        w1.load p = some cc1 ∧ cc1.socket = cc.socket ∧ cc1.ssl_conn = cc.ssl_conn) ∧
    (∀ (c0 : tls) (s : Int) (ss : List Int), E.tls_new w.trace = some c0 →
      ∃ (r1 : Int) (wA : World) (rs : List Int) (w1 : World) (t1 t2 : List Event)
        (conn : tls),
        tls_accept_socket K E w ctx none s = some (r1, some w.heap.length, wA) ∧
        accept_calls K E ctx w none (s :: ss) = some (r1 :: rs, some w.heap.length, w1) ∧
        rs.length = ss.length ∧
        w.load w.heap.length = none ∧
        wA.trace = w.trace ++ t1 ∧ w1.trace = wA.trace ++ t2 ∧
        t1.countP Event.isAlloc = 1 ∧ t1.countP Event.isSessionNew = 1 ∧
        (∀ e ∈ t2, e.isCreation = false) ∧
        w1.load w.heap.length = some conn ∧ conn.socket = s ∧
        conn.ssl_conn =
          E.SSL_new (w.trace ++ [Event.tls_new (some w.heap.length)]) c.ssl_ctx) := by
  constructor
  · intro p cc socket hp
    obtain ⟨r, w1, t, h1, h2, h3, h4, _⟩ :=
      tls_accept_socket_populated K E w ctx p socket c cc hctx hflag hp
    have h4a : w1.heap = w.heap ++ [] ∨
        (r = -1 ∧ ∃ m, w1.heap = w.heap.set ctx { c with errmsg := some m } ++ []) := by
      simpa using h4
    obtain ⟨cc1, hcc1, hcc1eq, _, _⟩ := load_frame hctx h4a hp
    exact ⟨r, w1, t, cc1, h1, h2, fun e he => (h3 e he).1, hcc1, by rw [hcc1eq],
      by rw [hcc1eq]⟩
  · intro c0 s ss hnew
    obtain ⟨r1, wA, t1, conn, h1, h2, h3, h4, h5, h6⟩ :=
      tls_accept_socket_first K E w ctx s c c0 hctx hflag hnew
    obtain ⟨c1, hc1, hc1eq, _, _⟩ := load_frame hctx h5 hctx
    have hf1 : c1.flags = c.flags := by rw [hc1eq]
    have hconn : wA.load w.heap.length = some conn := load_new_of_heap ctx c r1 h5
    obtain ⟨rs, w1, t2, cc1, g1, g2, g3, g4, g5, g6, g7⟩ :=
      accept_calls_populated K E ctx w.heap.length ss wA c1 conn hc1
        (by rw [hf1]; exact hflag) hconn
    refine ⟨r1, wA, rs, w1, t1, t2, cc1, h1, ?_, g2, ?_, h2, g3, h3, h4, g4, g5, ?_, ?_⟩
    · simp [accept_calls, h1, g1]
    · unfold World.load
      exact List.getElem?_eq_none (Nat.le_refl _)
    · rw [g6, h6]
    · rw [g7, h6]

/-- Instance of the amended C2: three calls on `okEngine`, starting with an
empty slot. -/
theorem tls_accept_socket_creation_once_witness :
    ∃ (r1 : Int) (wA : World) (rs : List Int) (w1 : World) (t1 t2 : List Event)
      (conn : tls),
      tls_accept_socket hdrConsts okEngine
          { heap := [serverTls false 0 (some 100)], trace := [] } 0 none 5 =
        some (r1, some 1, wA) ∧
      accept_calls hdrConsts okEngine 0
          { heap := [serverTls false 0 (some 100)], trace := [] } none [5, 6, 7] =
        some (r1 :: rs, some 1, w1) ∧
      rs.length = 2 ∧
      World.load { heap := [serverTls false 0 (some 100)], trace := [] } 1 = none ∧
      wA.trace = [] ++ t1 ∧ w1.trace = wA.trace ++ t2 ∧
      t1.countP Event.isAlloc = 1 ∧ t1.countP Event.isSessionNew = 1 ∧
      (∀ e ∈ t2, e.isCreation = false) ∧
      w1.load 1 = some conn ∧ conn.socket = 5 ∧
      conn.ssl_conn = okEngine.SSL_new ([] ++ [Event.tls_new (some 1)]) (some 100) :=
  (tls_accept_socket_creation_once hdrConsts okEngine
    { heap := [serverTls false 0 (some 100)], trace := [] } 0
    (serverTls false 0 (some 100)) rfl (by decide)).2 (blankTls false 0) 5 [6, 7] rfl

/-- Against C7 as stated: DTLS server context, empty slot, and a listen step
that succeeds (`DTLSv1_listen` returns 1): the first call returns 0 (Done),
which is not `TLS_READ_AGAIN`, with the slot populated. -/
theorem tls_accept_socket_dtls_listen_done :
    tls_accept_socket hdrConsts okEngine
        { heap := [serverTls true 0 (some 100)], trace := [] } 0 none 5 =
      some (0, some 1,
        { heap := [serverTls true 0 (some 100),
            { blankTls false 0 with flags := 4, socket := 5, ssl_conn := some 300 }],
          trace := [Event.tls_new (some 1), Event.SSL_new (some 100) (some 300),
            Event.BIO_new_dgram 5 0 (some 400), Event.SSL_set_bio (some 300) (some 400) (some 400),
            Event.SSL_set_app_data (some 300) 1, Event.DTLSv1_listen (some 300) 1] }) ∧
    (0 : Int) ≠ hdrConsts.TLS_READ_AGAIN := by
  refine ⟨by rfl, by decide⟩

/-- C7 as amended: for a DTLS server context and an empty slot whose setup
succeeds, the first call makes the listen step and returns 0 (Done) when that
step returns 1, and `TLS_READ_AGAIN` when the step does not return 1 and the
engine error is `SSL_ERROR_WANT_READ`; in both cases the slot is populated
with the new context. -/
theorem tls_accept_socket_dtls_first_call (K : Consts) (E : Engine) (w : World)
    (ctx : Ptr) (socket : Int) (c c0 : tls) (ssl : Handle) (bio : Option Handle)
    (ret err : Int)
    (hctx : w.load ctx = some c) (hflag : c.flags &&& K.TLS_SERVER ≠ 0)
    (hdtls : c.config.dtls = true)
    (hnew : E.tls_new w.trace = some c0)
    (hssl : E.SSL_new (w.trace ++ [Event.tls_new (some w.heap.length)]) c.ssl_ctx = some ssl)
    (hbio : bio = E.BIO_new_dgram (w.trace ++ [Event.tls_new (some w.heap.length),
      Event.SSL_new c.ssl_ctx (some ssl)]) socket K.BIO_NOCLOSE)
    (hret : ret = E.DTLSv1_listen (w.trace ++ [Event.tls_new (some w.heap.length),
      Event.SSL_new c.ssl_ctx (some ssl), Event.BIO_new_dgram socket K.BIO_NOCLOSE bio,
      Event.SSL_set_bio (some ssl) bio bio,
      Event.SSL_set_app_data (some ssl) w.heap.length]) (some ssl))
    (herr : err = E.SSL_get_error (w.trace ++ [Event.tls_new (some w.heap.length),
      Event.SSL_new c.ssl_ctx (some ssl), Event.BIO_new_dgram socket K.BIO_NOCLOSE bio,
      Event.SSL_set_bio (some ssl) bio bio,
      Event.SSL_set_app_data (some ssl) w.heap.length,
      Event.DTLSv1_listen (some ssl) ret]) (some ssl) ret) :
    (ret = 1 →
      tls_accept_socket K E w ctx none socket = some (0, some w.heap.length,
        { heap := w.heap ++ [{ c0 with flags := c0.flags ||| K.TLS_SERVER_CONN,
                                       socket := socket, ssl_conn := some ssl }],
          trace := w.trace ++ [Event.tls_new (some w.heap.length),
            Event.SSL_new c.ssl_ctx (some ssl), Event.BIO_new_dgram socket K.BIO_NOCLOSE bio,
            Event.SSL_set_bio (some ssl) bio bio,
            Event.SSL_set_app_data (some ssl) w.heap.length,
            Event.DTLSv1_listen (some ssl) ret] })) ∧
    (ret ≠ 1 → err = K.SSL_ERROR_WANT_READ →
      tls_accept_socket K E w ctx none socket = some (K.TLS_READ_AGAIN, some w.heap.length,
        { heap := w.heap ++ [{ c0 with flags := c0.flags ||| K.TLS_SERVER_CONN,
                                       socket := socket, ssl_conn := some ssl }],
          trace := w.trace ++ [Event.tls_new (some w.heap.length),
            Event.SSL_new c.ssl_ctx (some ssl), Event.BIO_new_dgram socket K.BIO_NOCLOSE bio,
            Event.SSL_set_bio (some ssl) bio bio,
            Event.SSL_set_app_data (some ssl) w.heap.length,
            Event.DTLSv1_listen (some ssl) ret,
            Event.SSL_get_error (some ssl) ret err] })) := by
  have hmain := tls_accept_socket_empty_eq K E w ctx socket c c0 hctx hflag hnew
  simp only [hssl, hdtls, if_true, ← hbio] at hmain
  have hh := tls_accept_handshake_eq K E
    { heap := w.heap ++ [{ c0 with flags := c0.flags ||| K.TLS_SERVER_CONN,
                                   socket := socket, ssl_conn := some ssl }],
      trace := w.trace ++ [Event.tls_new (some w.heap.length),
        Event.SSL_new c.ssl_ctx (some ssl), Event.BIO_new_dgram socket K.BIO_NOCLOSE bio,
        Event.SSL_set_bio (some ssl) bio bio,
        Event.SSL_set_app_data (some ssl) w.heap.length] }
    ctx w.heap.length c
    { c0 with flags := c0.flags ||| K.TLS_SERVER_CONN, socket := socket,
              ssl_conn := some ssl }
    ret err (Event.DTLSv1_listen (some ssl) ret)
    (load_append_left _ _ hctx) (load_append_new w _ _)
    (by simp only [hdtls, if_true]; exact hret)
    (by simp only [hdtls, if_true])
    (by simp only [List.append_assoc, List.cons_append, List.nil_append]; exact herr)
  rw [hmain, hh]
  constructor
  · intro h1
    simp [h1]
  · intro h1 h2
    simp [h1, h2]

/-- Instance of the amended C7 on `okEngine`, whose listen step returns 1. -/
theorem tls_accept_socket_dtls_first_call_witness :
    tls_accept_socket hdrConsts okEngine
        { heap := [serverTls true 0 (some 100)], trace := [] } 0 none 5 =
      some (0, some 1,
        { heap := [serverTls true 0 (some 100),
            { blankTls false 0 with flags := 4, socket := 5, ssl_conn := some 300 }],
          trace := [Event.tls_new (some 1), Event.SSL_new (some 100) (some 300),
            Event.BIO_new_dgram 5 0 (some 400), Event.SSL_set_bio (some 300) (some 400) (some 400),
            Event.SSL_set_app_data (some 300) 1, Event.DTLSv1_listen (some 300) 1] }) :=
  (tls_accept_socket_dtls_first_call hdrConsts okEngine
    { heap := [serverTls true 0 (some 100)], trace := [] } 0 5
    (serverTls true 0 (some 100)) (blankTls false 0) 300 (some 400) 1 0
    rfl (by decide) rfl rfl rfl rfl rfl rfl).1 rfl

theorem or_and_self_flag (a b : Nat) : (a ||| b) &&& b = b := by
  apply Nat.eq_of_testBit_eq
  intro i
  simp only [Nat.testBit_and, Nat.testBit_or]
  cases a.testBit i <;> cases b.testBit i <;> rfl

/-- C8: on a server context and an empty slot, when allocation, session
creation and (for the stream protocol) `SSL_set_fd` succeed, then whatever the
handshake step gives, after the call the slot holds a context that was not live
before, whose flags contain `TLS_SERVER_CONN`, whose socket is the socket
passed and whose session is the one `SSL_new` created from `ctx->ssl_ctx`; the
creation calls recorded are exactly the allocation, that `SSL_new`, the binding
(for DTLS `BIO_new_dgram(socket, BIO_NOCLOSE)` whose result is attached as both
read and write transport; for stream `SSL_set_fd`) and `SSL_set_app_data` of
the session to the address held by the slot; the calls after them are not
creation calls. -/
theorem tls_accept_socket_new_connection (K : Consts) (E : Engine) (w : World)
    (ctx : Ptr) (socket : Int) (c c0 : tls) (ssl : Handle) (bio : Option Handle)
    (hctx : w.load ctx = some c) (hflag : c.flags &&& K.TLS_SERVER ≠ 0)
    (hnew : E.tls_new w.trace = some c0)
    (hssl : E.SSL_new (w.trace ++ [Event.tls_new (some w.heap.length)]) c.ssl_ctx = some ssl)
    (hbio : bio = E.BIO_new_dgram (w.trace ++ [Event.tls_new (some w.heap.length),
      Event.SSL_new c.ssl_ctx (some ssl)]) socket K.BIO_NOCLOSE)
    (hfd : c.config.dtls = false →
      E.SSL_set_fd (w.trace ++ [Event.tls_new (some w.heap.length),
        Event.SSL_new c.ssl_ctx (some ssl)]) (some ssl) socket = 1) :
    ∃ (r : Int) (w1 : World) (conn : tls) (t : List Event),
      tls_accept_socket K E w ctx none socket = some (r, some w.heap.length, w1) ∧
      w.load w.heap.length = none ∧
      w1.load w.heap.length = some conn ∧
      conn = { c0 with flags := c0.flags ||| K.TLS_SERVER_CONN, socket := socket,
                       ssl_conn := some ssl } ∧
      conn.flags &&& K.TLS_SERVER_CONN = K.TLS_SERVER_CONN ∧
      conn.socket = socket ∧ conn.ssl_conn = some ssl ∧
      w1.trace = w.trace ++
        ([Event.tls_new (some w.heap.length), Event.SSL_new c.ssl_ctx (some ssl)] ++
          (if c.config.dtls = true then
            [Event.BIO_new_dgram socket K.BIO_NOCLOSE bio, Event.SSL_set_bio (some ssl) bio bio]
          else [Event.SSL_set_fd (some ssl) socket 1]) ++
          [Event.SSL_set_app_data (some ssl) w.heap.length] ++ t) ∧
      (∀ e ∈ t, e.isCreation = false) := by
  have hlt := load_lt hctx
  have hnone : w.load w.heap.length = none := by
    unfold World.load
    exact List.getElem?_eq_none (Nat.le_refl _)
  rw [tls_accept_socket_empty_eq K E w ctx socket c c0 hctx hflag hnew]
  simp only [hssl, ← hbio]
  obtain ⟨conn, hcn⟩ : ∃ conn : tls, conn = { c0 with
      flags := c0.flags ||| K.TLS_SERVER_CONN, socket := socket,
      ssl_conn := some ssl } := ⟨_, rfl⟩
  rw [← hcn]
  have hfl : conn.flags &&& K.TLS_SERVER_CONN = K.TLS_SERVER_CONN := by
    rw [hcn]
    exact or_and_self_flag _ _
  have hso : conn.socket = socket := by rw [hcn]
  have hsc : conn.ssl_conn = some ssl := by rw [hcn]
  by_cases hd : c.config.dtls = true
  · simp only [hd, if_true]
    obtain ⟨r, w7, t, h1, h2, h3, h4, _⟩ :=
      tls_accept_handshake_frame K E
        { heap := w.heap ++ [conn],
          trace := w.trace ++ [Event.tls_new (some w.heap.length),
            Event.SSL_new c.ssl_ctx (some ssl),
            Event.BIO_new_dgram socket K.BIO_NOCLOSE bio,
            Event.SSL_set_bio (some ssl) bio bio,
            Event.SSL_set_app_data (some ssl) w.heap.length] }
        ctx w.heap.length socket c conn
        (load_append_left _ _ hctx) (load_append_new w _ _)
    rw [h1]
    refine ⟨r, w7, conn, t, rfl, hnone, ?_, rfl, hfl, hso, hsc, ?_, fun e he => (h3 e he).1⟩
    · apply load_new_of_heap ctx c r
      rcases h4 with h4 | ⟨h4, m, h6⟩
      · exact Or.inl h4
      · refine Or.inr ⟨h4, m, ?_⟩
        rw [h6, List.set_append_left _ _ hlt]
    · rw [h2]
      simp
  · have hdf : c.config.dtls = false := by simpa using hd
    simp only [hdf, Bool.false_eq_true, if_false, hfd hdf, ne_eq, not_true_eq_false]
    obtain ⟨r, w7, t, h1, h2, h3, h4, _⟩ :=
      tls_accept_handshake_frame K E
        { heap := w.heap ++ [conn],
          trace := w.trace ++ [Event.tls_new (some w.heap.length),
            Event.SSL_new c.ssl_ctx (some ssl),
            Event.SSL_set_fd (some ssl) socket 1,
            Event.SSL_set_app_data (some ssl) w.heap.length] }
        ctx w.heap.length socket c conn
        (load_append_left _ _ hctx) (load_append_new w _ _)
    rw [h1]
    refine ⟨r, w7, conn, t, rfl, hnone, ?_, rfl, hfl, hso, hsc, ?_, fun e he => (h3 e he).1⟩
    · apply load_new_of_heap ctx c r
      rcases h4 with h4 | ⟨h4, m, h6⟩
      · exact Or.inl h4
      · refine Or.inr ⟨h4, m, ?_⟩
        rw [h6, List.set_append_left _ _ hlt]
    · rw [h2]
      simp

/-- Instance of C8: DTLS configuration on `okEngine`. -/
theorem tls_accept_socket_new_connection_witness :
    ∃ (r : Int) (w1 : World) (conn : tls) (t : List Event),
      tls_accept_socket hdrConsts okEngine
          { heap := [serverTls true 0 (some 100)], trace := [] } 0 none 5 =
        some (r, some 1, w1) ∧
      World.load { heap := [serverTls true 0 (some 100)], trace := [] } 1 = none ∧
      w1.load 1 = some conn ∧
      conn = { blankTls false 0 with flags := 0 ||| 4, socket := 5, ssl_conn := some 300 } ∧
      conn.flags &&& 4 = 4 ∧
      conn.socket = 5 ∧ conn.ssl_conn = some 300 ∧
      w1.trace = [] ++
        ([Event.tls_new (some 1), Event.SSL_new (some 100) (some 300)] ++
          (if (serverTls true 0 (some 100)).config.dtls = true then
            [Event.BIO_new_dgram 5 0 (some 400),
              Event.SSL_set_bio (some 300) (some 400) (some 400)]
          else [Event.SSL_set_fd (some 300) 5 1]) ++
          [Event.SSL_set_app_data (some 300) 1] ++ t) ∧
      (∀ e ∈ t, e.isCreation = false) :=
  tls_accept_socket_new_connection hdrConsts okEngine
    { heap := [serverTls true 0 (some 100)], trace := [] } 0 5
    (serverTls true 0 (some 100)) (blankTls false 0) 300 (some 400)
    rfl (by decide) rfl rfl rfl (fun h => absurd h (by decide))

/-- C9: on a server context and an empty slot, a failure of the creation step
returns -1 without any handshake call: when the allocation fails the slot
stays empty; when `SSL_new` returns no session (whatever `ctx->ssl_ctx` is,
absent included) or, for the stream protocol, `SSL_set_fd` does not return 1,
the slot holds the newly allocated context.  On every path, whatever the slot
held, every object that was live stays live, the object the slot points at is
live, and every call recorded is one of `Event.isAcceptCall`: none releases
an object, and a datagram adapter is always built with `BIO_NOCLOSE`. -/
theorem tls_accept_socket_setup_failure (K : Consts) (E : Engine) (w : World)
    (ctx : Ptr) (socket : Int) (c : tls)
    (hctx : w.load ctx = some c) (hflag : c.flags &&& K.TLS_SERVER ≠ 0) :
    (E.tls_new w.trace = none →
      tls_accept_socket K E w ctx none socket = some (-1, none,
        { heap := w.heap.set ctx
            { c with errmsg := some ⟨"connection context failure", []⟩ },
          trace := w.trace ++ [Event.tls_new none] })) ∧
    (∀ c0 : tls, E.tls_new w.trace = some c0 →
      E.SSL_new (w.trace ++ [Event.tls_new (some w.heap.length)]) c.ssl_ctx = none →
      tls_accept_socket K E w ctx none socket = some (-1, some w.heap.length,
        { heap := w.heap.set ctx { c with errmsg := some ⟨"ssl failure", []⟩ } ++
            [{ c0 with flags := c0.flags ||| K.TLS_SERVER_CONN, socket := socket,
                       ssl_conn := none }],
          trace := w.trace ++ [Event.tls_new (some w.heap.length),
            Event.SSL_new c.ssl_ctx none] })) ∧
    (∀ (c0 : tls) (ssl : Handle) (r : Int), E.tls_new w.trace = some c0 →
      E.SSL_new (w.trace ++ [Event.tls_new (some w.heap.length)]) c.ssl_ctx = some ssl →
      c.config.dtls = false →
      E.SSL_set_fd (w.trace ++ [Event.tls_new (some w.heap.length),
        Event.SSL_new c.ssl_ctx (some ssl)]) (some ssl) socket = r →
      r ≠ 1 →
      tls_accept_socket K E w ctx none socket = some (-1, some w.heap.length,
        { heap := w.heap.set ctx { c with errmsg := some ⟨"ssl set fd failure", []⟩ } ++
            [{ c0 with flags := c0.flags ||| K.TLS_SERVER_CONN, socket := socket,
                       ssl_conn := some ssl }],
          trace := w.trace ++ [Event.tls_new (some w.heap.length),
            Event.SSL_new c.ssl_ctx (some ssl), Event.SSL_set_fd (some ssl) socket r] })) ∧
    (∀ cctx : Option Ptr, (∀ p, cctx = some p → ∃ cc, w.load p = some cc) →
      ∃ (r : Int) (slot1 : Option Ptr) (w1 : World) (t : List Event),
        tls_accept_socket K E w ctx cctx socket = some (r, slot1, w1) ∧
        w1.trace = w.trace ++ t ∧
        (∀ e ∈ t, e.isAcceptCall K socket = true) ∧
        (∀ (q : Ptr) (x : tls), w.load q = some x → ∃ y, w1.load q = some y) ∧
        (∀ q : Ptr, slot1 = some q → ∃ y, w1.load q = some y)) := by
  refine ⟨?_, ?_, ?_, ?_⟩
  · intro hnew
    have hld : World.load
        { heap := w.heap, trace := w.trace ++ [Event.tls_new none] } ctx = some c := hctx
    simp [tls_accept_socket, hctx, hflag, tls_server_conn_null K E w ctx hnew,
      tls_set_error, hld, World.store, World.emit]
  · intro c0 hnew hs
    rw [tls_accept_socket_empty_eq K E w ctx socket c c0 hctx hflag hnew]
    simp only [hs]
  · intro c0 ssl r hnew hs hd hfd hr
    rw [tls_accept_socket_empty_eq K E w ctx socket c c0 hctx hflag hnew]
    simp only [hs, hd, Bool.false_eq_true, if_false, hfd, ne_eq, hr, not_false_eq_true,
      if_true]
  · intro cctx hslot
    obtain ⟨r, slot1, w1, t, l, h1, h2, h3, h4, _, h6⟩ :=
      tls_accept_socket_frame K E w ctx cctx socket c hctx hslot
    refine ⟨r, slot1, w1, t, h1, h2, h3, ?_, ?_⟩
    · intro q x hq
      obtain ⟨y, hy, _⟩ := load_frame hctx h4 hq
      exact ⟨y, hy⟩
    · intro q hq
      rcases h6 with ⟨h6, _⟩ | ⟨_, h6, conn, hl⟩
      · rw [h6] at hq
        obtain ⟨cc, hcc⟩ := hslot q hq
        obtain ⟨y, hy, _⟩ := load_frame hctx h4 hcc
        exact ⟨y, hy⟩
      · rw [h6] at hq
        cases hq
        rw [hl] at h4
        exact ⟨conn, load_new_of_heap ctx c r h4⟩

/-- Instance of C9: a server context that was never configured (no engine
context) on an engine that then creates no session. -/
theorem tls_accept_socket_setup_failure_witness :
    tls_accept_socket hdrConsts noSessionEngine
        { heap := [serverTls false 0 none], trace := [] } 0 none 5 =
      some (-1, some 1,
        { heap := [{ serverTls false 0 none with errmsg := some ⟨"ssl failure", []⟩ },
            { blankTls false 0 with flags := 4, socket := 5, ssl_conn := none }],
          trace := [Event.tls_new (some 1), Event.SSL_new none none] }) :=
  (tls_accept_socket_setup_failure hdrConsts noSessionEngine
    { heap := [serverTls false 0 none], trace := [] } 0 5 (serverTls false 0 none)
    rfl (by decide)).2.1 (blankTls false 0) rfl rfl

/-- C10: on every path `tls_accept_socket` leaves the flags, the config and
the engine context of the server context as they were; the only field it can
change is the error message, and when the call returns a code other than -1
the server context is unchanged altogether: so it is on the paths returning 0,
`TLS_READ_AGAIN` or `TLS_WRITE_AGAIN`, these two constants being other than -1.
The return value is 0, `TLS_READ_AGAIN`, `TLS_WRITE_AGAIN` or -1. -/
theorem tls_accept_socket_server_ctx_frame (K : Consts) (E : Engine) (w : World)
    (ctx : Ptr) (cctx : Option Ptr) (socket : Int) (c : tls)
    (hctx : w.load ctx = some c)
    (hslot : ∀ p, cctx = some p → ∃ cc, w.load p = some cc) :
    ∃ (r : Int) (slot1 : Option Ptr) (w1 : World) (c1 : tls),
      tls_accept_socket K E w ctx cctx socket = some (r, slot1, w1) ∧
      w1.load ctx = some c1 ∧
      c1.flags = c.flags ∧ c1.config = c.config ∧ c1.ssl_ctx = c.ssl_ctx ∧
      c1 = { c with errmsg := c1.errmsg } ∧
      (r ≠ -1 → c1 = c) ∧
      (K.TLS_READ_AGAIN ≠ -1 → K.TLS_WRITE_AGAIN ≠ -1 →
        r = 0 ∨ r = K.TLS_READ_AGAIN ∨ r = K.TLS_WRITE_AGAIN → c1 = c) ∧
      (r = 0 ∨ r = K.TLS_READ_AGAIN ∨ r = K.TLS_WRITE_AGAIN ∨ r = -1) := by
  obtain ⟨r, slot1, w1, t, l, h1, _, _, h4, h5, _⟩ :=
    tls_accept_socket_frame K E w ctx cctx socket c hctx hslot
  obtain ⟨c1, hc1, hc1eq, _, hne⟩ := load_frame hctx h4 hctx
  refine ⟨r, slot1, w1, c1, h1, hc1, by rw [hc1eq], by rw [hc1eq], by rw [hc1eq], hc1eq,
    hne, ?_, h5⟩
  intro hra hwa hr
  apply hne
  rcases hr with hr | hr | hr
  · rw [hr]; decide
  · rw [hr]; exact hra
  · rw [hr]; exact hwa

/-- Instance of C10: a first call that returns `TLS_READ_AGAIN`. -/
theorem tls_accept_socket_server_ctx_frame_witness :
    ∃ (r : Int) (slot1 : Option Ptr) (w1 : World) (c1 : tls),
      tls_accept_socket hdrConsts wantReadEngine
          { heap := [serverTls false 0 (some 100)], trace := [] } 0 none 5 =
        some (r, slot1, w1) ∧
      w1.load 0 = some c1 ∧
      c1.flags = 2 ∧ c1.config = { dtls := false, ecdhcurve := 0 } ∧
      c1.ssl_ctx = some 100 ∧
      c1 = { serverTls false 0 (some 100) with errmsg := c1.errmsg } ∧
      (r ≠ -1 → c1 = serverTls false 0 (some 100)) ∧
      ((-2 : Int) ≠ -1 → (-3 : Int) ≠ -1 →
        r = 0 ∨ r = -2 ∨ r = -3 → c1 = serverTls false 0 (some 100)) ∧
      (r = 0 ∨ r = -2 ∨ r = -3 ∨ r = -1) :=
  tls_accept_socket_server_ctx_frame hdrConsts wantReadEngine
    { heap := [serverTls false 0 (some 100)], trace := [] } 0 none 5
    (serverTls false 0 (some 100)) rfl (fun p h => absurd h (by simp))

end TlsServer
